import Mathlib

/-!
Verification of the py3dblox parsing core (the `.3dbv` / `.3dbx` / `.bmap`
parsers of `src/python/py3dblox/py3dblox/`) against its natural-language
specification.

The Python code is shallowly embedded:

* YAML-decoded documents (the external decoder's output) are the inductive
  `YVal`; mapping nodes are association lists in document order.
* Python exceptions become `Except PyErr`: `PyErr.parserError` is the
  `ParserError` raised by `BaseParser.log_error`, while `PyErr.valueError` /
  `PyErr.typeError` are the raw `ValueError` / `TypeError` (or
  `AttributeError`) a Python builtin raises.
* Python `float` values are modelled as exact rationals (`Rat` built with
  `mkRat`); none of the verified properties depends on binary rounding.
  `float(...)` on a string is modelled for finite decimal literals
  (optional sign, digits, optional fraction); exponent forms, `inf`/`nan`
  and underscores are outside the model.
* String manipulation is re-implemented over `List Char` (`pyStrip`,
  `pyReplace`, ...) so that every definition evaluates inside the kernel;
  `str.splitlines` is modelled as splitting on a newline character.
* The filesystem consulted by `resolve_paths` is the explicit value `FS`:
  the set of existing directories together with the regular files each one
  contains, in iteration order.
-/

/-! ## String utilities (models of the Python `str` operations used) -/

/-- The characters of a string. -/
def strChars (s : String) : List Char := s.toList

/-- A string from its characters. -/
def strOf (l : List Char) : String := String.mk l

/-- Python `str.startswith`. -/
def pyStartsWith (s pre : String) : Bool := pre.toList.isPrefixOf s.toList

/-- Python `str.endswith`. -/
def pyEndsWith (s suf : String) : Bool := suf.toList.isSuffixOf s.toList

/-- Python `str.strip()` (no argument: strip whitespace on both sides). -/
def pyStrip (s : String) : String :=
  strOf (((s.toList.dropWhile Char.isWhitespace).reverse.dropWhile
      Char.isWhitespace).reverse)

/-- Python slicing `s[n:]` (code points). -/
def pyDrop (s : String) (n : Nat) : String := strOf (s.toList.drop n)

/-- Python `len(s)` (code points). -/
def pyLen (s : String) : Nat := s.toList.length

/-- Python `c in s` for a single character. -/
def pyContainsChar (s : String) (c : Char) : Bool := s.toList.contains c

/-- Python `str.split()` with no separator: split on whitespace runs,
dropping empty tokens. -/
def pySplitWs (s : String) : List String :=
  ((s.toList.splitOnP Char.isWhitespace).filter (· ≠ [])).map strOf

/-- Python `str.splitlines` for LF-separated text, as used on the file
contents here (other line terminators are outside the model). -/
def pySplitLines (s : String) : List String :=
  (s.toList.splitOnP (· = '\n')).map strOf

/-- Joining lines with a newline character (`"\n".join(...)`). -/
def joinCharLines : List (List Char) → List Char
  | [] => []
  | [l] => l
  | l :: rest => l ++ '\n' :: joinCharLines rest

/-- Python `"\n".join(lines)`. -/
def pyJoinLines (ls : List String) : String :=
  strOf (joinCharLines (ls.map strChars))

/-- One fuel-indexed pass of left-to-right, non-overlapping replacement.
Fuel is the remaining length plus one, so the recursion is structural and
kernel-reducible. -/
def replFuel : Nat → List Char → List Char → List Char → List Char
  | 0, s, _, _ => s
  | _ + 1, [], _, _ => []
  | fuel + 1, c :: rest, pat, rep =>
    if pat.isPrefixOf (c :: rest) then
      rep ++ replFuel fuel ((c :: rest).drop pat.length) pat rep
    else c :: replFuel fuel rest pat rep

/-- Python `str.replace` for a non-empty pattern (the macro keys produced by
`str.split` are never empty; an empty pattern is mapped to the identity). -/
def pyReplace (s pat rep : String) : String :=
  if pat.toList = [] then s
  else strOf (replFuel (s.toList.length + 1) s.toList pat.toList rep.toList)

/-- Python `str.split(maxsplit=1)` restricted to the two-token outcome:
`some (first, rest)` when the string has at least two whitespace-separated
tokens (`rest` is the raw remainder after the first whitespace run),
`none` when it has fewer. -/
def pySplitMax1 (s : String) : Option (String × String) :=
  let cs := s.toList.dropWhile Char.isWhitespace
  let tok := cs.takeWhile (fun c => !c.isWhitespace)
  let rest := (cs.dropWhile (fun c => !c.isWhitespace)).dropWhile Char.isWhitespace
  if tok = [] then none
  else if rest = [] then none
  else some (strOf tok, strOf rest)

/-! ## Numeric conversions (models of the Python builtins used) -/

/-- The value of a digit string. -/
def digitsVal (ds : List Char) : Nat :=
  ds.foldl (fun a c => a * 10 + (c.toNat - 48)) 0

/-- Python `float(s)` on a string, for finite decimal literals: optional
sign, digits, optional fraction, surrounding whitespace ignored. The result
is the exact rational value. -/
def parseDecimalStr (s : String) : Option Rat :=
  let cs := (pyStrip s).toList
  let signAndRest : Bool × List Char :=
    match cs with
    | '-' :: rest => (true, rest)
    | '+' :: rest => (false, rest)
    | _ => (false, cs)
  let neg := signAndRest.1
  let cs2 := signAndRest.2
  let ip := cs2.takeWhile Char.isDigit
  let rest1 := cs2.dropWhile Char.isDigit
  match rest1 with
  | [] =>
    if ip = [] then none
    else some (mkRat (if neg then -(digitsVal ip : Int) else (digitsVal ip : Int)) 1)
  | '.' :: rest2 =>
    let fp := rest2.takeWhile Char.isDigit
    let rest3 := rest2.dropWhile Char.isDigit
    if rest3 = [] ∧ ¬(ip = [] ∧ fp = []) then
      let m : Nat := digitsVal ip * 10 ^ fp.length + digitsVal fp
      some (mkRat (if neg then -(m : Int) else (m : Int)) (10 ^ fp.length))
    else none
  | _ => none

/-- Python `int(s)` on a string: optional sign and digits only. -/
def parseIntStr (s : String) : Option Int :=
  let cs := (pyStrip s).toList
  let signAndRest : Bool × List Char :=
    match cs with
    | '-' :: rest => (true, rest)
    | '+' :: rest => (false, rest)
    | _ => (false, cs)
  let neg := signAndRest.1
  let cs2 := signAndRest.2
  if cs2 ≠ [] ∧ cs2.all Char.isDigit then
    some (if neg then -(digitsVal cs2 : Int) else (digitsVal cs2 : Int))
  else none

/-- Truncation toward zero, as Python `int(float)`. -/
def ratTrunc (q : Rat) : Int := q.num.tdiv q.den

/-! ## The decoded-document value type and the error model -/

/-- A value of the generic tree produced by the external YAML decoder:
null, booleans, integers, floats (exact rationals), strings, sequences and
mappings (association lists in document order; the decoder never produces
duplicate keys). -/
inductive YVal where
  | ynull : YVal
  | ybool : Bool → YVal
  | yint : Int → YVal
  | yfloat : Rat → YVal
  | ystr : String → YVal
  | ylist : List YVal → YVal
  | ymap : List (String × YVal) → YVal
deriving Repr

/-- The Python type name of a decoded value, for error messages. -/
def pyTypeName : YVal → String
  | .ynull => "NoneType"
  | .ybool _ => "bool"
  | .yint _ => "int"
  | .yfloat _ => "float"
  | .ystr _ => "str"
  | .ylist _ => "list"
  | .ymap _ => "dict"

/-- The exceptions the parsing core can raise: `parserError` is the
project's own `ParserError` (always raised through `BaseParser.log_error`),
`valueError` and `typeError` are the raw Python `ValueError` and
`TypeError`/`AttributeError` escaping from builtins. -/
inductive PyErr where
  | parserError : String → PyErr
  | valueError : String → PyErr
  | typeError : String → PyErr
deriving Repr, DecidableEq

deriving instance DecidableEq for Except

/-- The message carried by an exception (Python `str(e)`). -/
def pyErrText : PyErr → String
  | .parserError m => m
  | .valueError m => m
  | .typeError m => m

/-- Python `float(v)` on a decoded value. -/
def pyFloat : YVal → Except PyErr Rat
  | .ybool b => .ok (if b then mkRat 1 1 else mkRat 0 1)
  | .yint n => .ok (mkRat n 1)
  | .yfloat q => .ok q
  | .ystr s =>
    match parseDecimalStr s with
    | some q => .ok q
    | none => .error (.valueError ("could not convert string to float: '" ++ s ++ "'"))
  | v => .error (.typeError
      ("float() argument must be a string or a real number, not '" ++ pyTypeName v ++ "'"))

/-- Python `int(v)` on a decoded value. -/
def pyInt : YVal → Except PyErr Int
  | .ybool b => .ok (if b then 1 else 0)
  | .yint n => .ok n
  | .yfloat q => .ok (ratTrunc q)
  | .ystr s =>
    match parseIntStr s with
    | some n => .ok n
    | none => .error (.valueError ("invalid literal for int() with base 10: '" ++ s ++ "'"))
  | v => .error (.typeError
      ("int() argument must be a string, a bytes-like object or a real number, not '"
        ++ pyTypeName v ++ "'"))

/-- Python `str(v)` on a decoded value. Exact on null, booleans, integers
and strings — the only cases the verified properties evaluate; the float,
sequence and mapping reprs are abbreviated. -/
def pyStr : YVal → String
  | .ynull => "None"
  | .ybool b => if b then "True" else "False"
  | .yint n => toString n
  | .yfloat q => toString q.num ++ "/" ++ toString q.den
  | .ystr s => s
  | .ylist _ => "<list>"
  | .ymap _ => "<dict>"

/-- Python `bool(v)` (truthiness) on a decoded value. -/
def pyBool : YVal → Bool
  | .ynull => false
  | .ybool b => b
  | .yint n => !(n == 0)
  | .yfloat q => !(q.num == 0)
  | .ystr s => !(s == "")
  | .ylist l => !l.isEmpty
  | .ymap m => !m.isEmpty

/-- Lookup in a mapping node (`node[key]` / `key in node` on a dict). -/
def ylookup : List (String × YVal) → String → Option YVal
  | [], _ => none
  | (k, v) :: rest, key => if k = key then some v else ylookup rest key

/-- Python `key in node` for a dict node. -/
def hasKey (node : List (String × YVal)) (key : String) : Bool :=
  (ylookup node key).isSome

/-- Requires a mapping node. Models the `AttributeError`/`TypeError` Python
raises when a node that the parser treats as a mapping is not one (in the
source the exception surfaces at the first `.items()`, membership test or
subscript on the node; here it is surfaced up front). -/
def asMap (v : YVal) : Except PyErr (List (String × YVal)) :=
  match v with
  | .ymap m => pure m
  | v => .error (.typeError ("expected a mapping node, got '" ++ pyTypeName v ++ "'"))

/-! ## The data model (`objects.py`) -/

/-- A 2D coordinate (`objects.Coordinate`). -/
structure Coordinate where
  x : Rat := mkRat 0 1
  y : Rat := mkRat 0 1
deriving Repr, DecidableEq

/-- Header information common to `.3dbv` and `.3dbx` files (`objects.Header`). -/
structure Header where
  version : String := ""
  unit : String := ""
  precision : Int := 1
  includes : List String := []
deriving Repr, DecidableEq

/-- A chiplet region definition (`objects.ChipletRegion`). -/
structure ChipletRegion where
  name : String := ""
  bmap : String := ""
  pmap : String := ""
  side : String := ""
  layer : String := ""
  gds_layer : String := ""
  coords : List Coordinate := []
deriving Repr, DecidableEq

/-- External file references for a chiplet (`objects.ChipletExternal`). -/
structure ChipletExternal where
  lef_files : List String := []
  tech_lef_files : List String := []
  lib_files : List String := []
  def_file : String := ""
deriving Repr, DecidableEq

/-- A chiplet definition from a `.3dbv` file (`objects.ChipletDef`);
unset numeric fields default to the sentinel -1. -/
structure ChipletDef where
  name : String := ""
  type : String := ""
  design_width : Rat := mkRat (-1) 1
  design_height : Rat := mkRat (-1) 1
  offset : Coordinate := {}
  seal_ring_left : Rat := mkRat (-1) 1
  seal_ring_bottom : Rat := mkRat (-1) 1
  seal_ring_right : Rat := mkRat (-1) 1
  seal_ring_top : Rat := mkRat (-1) 1
  scribe_line_left : Rat := mkRat (-1) 1
  scribe_line_bottom : Rat := mkRat (-1) 1
  scribe_line_right : Rat := mkRat (-1) 1
  scribe_line_top : Rat := mkRat (-1) 1
  thickness : Rat := mkRat (-1) 1
  shrink : Rat := mkRat (-1) 1
  tsv : Bool := false
  regions : List (String × ChipletRegion) := []
  external : ChipletExternal := {}
deriving Repr, DecidableEq

/-- Data of a whole `.3dbv` file (`objects.DbvData`). -/
structure DbvData where
  header : Header := {}
  chiplet_defs : List (String × ChipletDef) := []
deriving Repr, DecidableEq

/-- External file references for a design (`objects.DesignExternal`). -/
structure DesignExternal where
  verilog_file : String := ""
deriving Repr, DecidableEq

/-- A design definition from a `.3dbx` file (`objects.DesignDef`). -/
structure DesignDef where
  name : String := ""
  external : DesignExternal := {}
deriving Repr, DecidableEq

/-- External file references for a chiplet instance
(`objects.ChipletInstExternal`). -/
structure ChipletInstExternal where
  verilog_file : String := ""
  sdc_file : String := ""
  def_file : String := ""
deriving Repr, DecidableEq

/-- A chiplet instance (`objects.ChipletInst`); `loc`, `z` and `orient` are
filled in by the `Stack` section. -/
structure ChipletInst where
  name : String := ""
  reference : String := ""
  external : ChipletInstExternal := {}
  loc : Coordinate := {}
  z : Rat := mkRat 0 1
  orient : String := ""
deriving Repr, DecidableEq

/-- A connection between chiplet regions (`objects.Connection`). The Python
dataclass annotates `top` and `bot` as `str`, but `_parse_connection`
assigns the result of `extract_value`, which is `None` when the source
value is the null sentinel; the fields are therefore `Option String`, with
`none` as the virtual/absence sentinel. -/
structure Connection where
  name : String := ""
  top : Option String := some ""
  bot : Option String := some ""
  thickness : Rat := mkRat 0 1
deriving Repr, DecidableEq

/-- Data of a whole `.3dbx` file (`objects.DbxData`). -/
structure DbxData where
  header : Header := {}
  design : DesignDef := {}
  chiplet_instances : List (String × ChipletInst) := []
  connections : List (String × Connection) := []
deriving Repr, DecidableEq

/-- A single bump-map record (`objects.BumpMapEntry`). -/
structure BumpMapEntry where
  bump_inst_name : String
  bump_cell_type : String
  x : Rat
  y : Rat
  port_name : String
  net_name : String
deriving Repr, DecidableEq

/-- Data of a whole `.bmap` file (`objects.BumpMapData`). -/
structure BumpMapData where
  entries : List BumpMapEntry := []
deriving Repr, DecidableEq

/-! ## Filesystem and path context for the Path Resolver -/

/-- The filesystem state `resolve_paths` consults: the absolute paths of
the existing directories, and for each one the names of the regular files
it contains, in iteration order. -/
structure FS where
  dirs : List String := []
  filesIn : List (String × List String) := []
deriving Repr, DecidableEq

/-- The regular files of a directory, in iteration order. -/
def FS.filesOf (fs : FS) (d : String) : List String :=
  match fs.filesIn.find? (fun p => p.1 = d) with
  | some p => p.2
  | none => []

/-- The parser's path context: the file currently being parsed
(`BaseParser.current_file_path`) and the process working directory (used by
`Path.absolute()` when there is no current file). -/
structure PathCtx where
  current_file_path : Option String := none
  cwd : String := "/"
deriving Repr, DecidableEq

/-! ## `BaseParser` (`base_parser.py`) -/

namespace BaseParser

/-- Logs an error and raises `ParserError` with a "Parser Error: " prefix
(`BaseParser.log_error`). The logging side effect is outside the model; the
raise always happens. -/
def log_error (message : String) : Except PyErr Unit :=
  Except.error (.parserError ("Parser Error: " ++ message))

/-- The `if key not in node: self.log_error(...)` guard pattern of the
parsers: raise a Parser Error unless the required key is present. -/
def checkRequired (present : Bool) (message : String) : Except PyErr Unit :=
  if present then pure () else log_error message

/-- Assignment into the `_defines` dict: an existing key keeps its position
and gets the new value, a new key is appended. -/
def dictInsert (m : List (String × String)) (k v : String) : List (String × String) :=
  if m.any (fun p => p.1 = k) then m.map (fun p => if p.1 = k then (k, v) else p)
  else m ++ [(k, v)]

/-- The macro-substitution loop of `parse_defines` for one line: each
defined (key, value) pair is applied in definition order by plain substring
replacement to the already-partially-substituted line. -/
def resolveLine (defines : List (String × String)) (line : String) : String :=
  defines.foldl (fun l kv => pyReplace l kv.1 kv.2) line

/-- The line loop of `BaseParser.parse_defines`: a line starting with
`#!define` is consumed (recording the definition when the rest of the line
splits into exactly a key and a value, silently ignoring it otherwise), and
every other line is emitted with all current macros substituted. -/
def processLines (defines : List (String × String)) : List String → List String
  | [] => []
  | line :: rest =>
    if pyStartsWith line "#!define" then
      match pySplitMax1 (pyStrip (pyDrop line 8)) with
      | some (k, v) => processLines (dictInsert defines (pyStrip k) (pyStrip v)) rest
      | none => processLines defines rest
    else resolveLine defines line :: processLines defines rest

/-- `BaseParser.parse_defines`: resolve `#!define` statements in the file
content. The `_defines` table is cleared at the start of each call, so the
line loop starts from the empty table. -/
def parse_defines (content : String) : String :=
  pyJoinLines (processLines [] (pySplitLines content))

/-! ### The path resolver -/

/-- Whether a POSIX path is absolute. -/
def pathIsAbsolute (p : String) : Bool := pyStartsWith p "/"

/-- The path's components after the lexical cleanup `pathlib.Path`
performs on construction: empty components and `.` are dropped, `..` is
kept. -/
def pathSegs (p : String) : List String :=
  (((p.toList.splitOnP (· = '/')).map strOf).filter
    (fun seg => !(seg == "") && !(seg == ".")))

/-- Joining path components with `/`. -/
def joinSegs : List String → String
  | [] => ""
  | [s] => s
  | s :: rest => s ++ "/" ++ joinSegs rest

/-- `str(pathlib.Path(p))`: the lexically cleaned-up path. -/
def pathNorm (p : String) : String :=
  let body := joinSegs (pathSegs p)
  if pathIsAbsolute p then "/" ++ body
  else if body = "" then "." else body

/-- Lexical `..`-elimination (the component walk of `Path.resolve()`;
symlinks are outside the model). -/
def resolveDots (segs : List String) : List String :=
  segs.foldl (fun acc seg => if seg = ".." then acc.dropLast else acc ++ [seg]) []

/-- `Path.resolve()`: make the path absolute against the working directory
and eliminate `..` lexically. -/
def pathResolve (ctx : PathCtx) (p : String) : String :=
  let q := if pathIsAbsolute p then p else ctx.cwd ++ "/" ++ p
  "/" ++ joinSegs (resolveDots (pathSegs q))

/-- `Path.parent` of a cleaned-up path. -/
def pathParent (p : String) : String :=
  let segs := pathSegs p
  if pathIsAbsolute p then "/" ++ joinSegs segs.dropLast
  else match segs.dropLast with
    | [] => "."
    | ss => joinSegs ss

/-- `Path.name` of a cleaned-up path: its last component. -/
def pathName (p : String) : String := ((pathSegs p).getLast?).getD ""

/-- `BaseParser.resolve_path`: an absolute path is returned unchanged; a
relative one is joined to the current file's directory and normalized, or
made absolute against the working directory when there is no current file
context. -/
def resolve_path (ctx : PathCtx) (path : String) : String :=
  if pathIsAbsolute path then pathNorm path
  else match ctx.current_file_path with
    | none => pathNorm (ctx.cwd ++ "/" ++ path)
    | some cf => pathResolve ctx (pathParent (pathNorm cf) ++ "/" ++ path)

/-- `str(directory / filename)` for a directory produced by `Path.parent`. -/
def joinPath (d n : String) : String :=
  if pyEndsWith d "/" then d ++ n else d ++ "/" ++ n

/-- `BaseParser._matches_pattern`: single-`*` glob matching — the text
before the first `*` must be a prefix and the text after it a suffix, with
no overlap; a pattern without `*` must match exactly. -/
def matches_pattern (filename pat : String) : Bool :=
  if !pyContainsChar pat '*' then filename == pat
  else
    let starPos := pat.toList.findIdx (· = '*')
    let preL := pat.toList.take starPos
    let sufL := pat.toList.drop (starPos + 1)
    if filename.toList.length < preL.length + sufL.length then false
    else preL.isPrefixOf filename.toList && sufL.isSuffixOf filename.toList

/-- `BaseParser.resolve_paths`: wildcard-aware path resolution. For a
pattern containing `*`, the resolved pattern's directory is listed and
matching regular files are returned; a missing directory goes through
`log_error` (which raises, making the subsequent `return []` dead code).
A pattern without `*` resolves to a single-element list with no existence
check. -/
def resolve_paths (fs : FS) (ctx : PathCtx) (path_pattern : String) :
    Except PyErr (List String) := do
  let resolved := resolve_path ctx path_pattern
  if pyContainsChar path_pattern '*' then
    let directory := pathParent resolved
    let patName := pathName resolved
    if !fs.dirs.contains directory then do
      log_error ("Directory does not exist: " ++ directory)
      return []
    else
      return ((fs.filesOf directory).filter
        (fun f => matches_pattern f patName)).map (joinPath directory)
  else
    return [resolved]

/-! ### Generic extraction helpers -/

/-- `BaseParser.extract_value` at `value_type=str` (the only type it is
called with): `none` for a missing key or a null value, otherwise the
`str()` of the value. `str` is total, so this extraction never raises. -/
def extract_value_str (node : List (String × YVal)) (key : String) :
    Except PyErr (Option String) :=
  match ylookup node key with
  | none => .ok none
  | some .ynull => .ok none
  | some v => .ok (some (pyStr v))

/-- `BaseParser.parse_coordinate`: a coordinate node must be a 2-element
sequence; a conversion failure of either component is wrapped into a
`ParserError` by the surrounding `except` clause. -/
def parse_coordinate (node : YVal) : Except PyErr Coordinate :=
  match node with
  | .ylist [a, b] =>
    (match pyFloat a with
     | .error e => do
       log_error ("Error parsing coordinate: " ++ pyErrText e)
       pure {}
     | .ok x =>
       match pyFloat b with
       | .error e => do
         log_error ("Error parsing coordinate: " ++ pyErrText e)
         pure {}
       | .ok y => pure (Coordinate.mk x y))
  | _ => do
    log_error "Coordinate must be an array [x, y]"
    pure {}

/-- The element loop of `BaseParser.parse_coordinates`. -/
def parse_coordinateList : List YVal → Except PyErr (List Coordinate)
  | [] => pure []
  | c :: rest => do
    let x ← parse_coordinate c
    let xs ← parse_coordinateList rest
    pure (x :: xs)

/-- `BaseParser.parse_coordinates`: a non-sequence node yields the empty
list; a sequence has each element parsed as a coordinate. -/
def parse_coordinates (node : YVal) : Except PyErr (List Coordinate) :=
  match node with
  | .ylist l => parse_coordinateList l
  | _ => pure []

/-- The include loop of `BaseParser.parse_header`: each non-null,
non-empty include is resolved with wildcard support and the results are
concatenated in order. -/
def collectIncludes (fs : FS) (ctx : PathCtx) : List YVal → Except PyErr (List String)
  | [] => pure []
  | inc :: rest => do
    let s := match inc with
      | .ynull => ""
      | v => pyStr v
    let here ← if s = "" then pure [] else resolve_paths fs ctx s
    let more ← collectIncludes fs ctx rest
    pure (here ++ more)

/-- `BaseParser.parse_header`: version and unit are optional strings,
`precision` goes through a bare `int(...)` (so a bad value raises a raw
`ValueError`/`TypeError`, not a `ParserError`), and a list-valued
`include` is resolved entry by entry. -/
def parse_header (fs : FS) (ctx : PathCtx) (node : List (String × YVal)) :
    Except PyErr Header := do
  let h0 : Header := {}
  let h1 ← if hasKey node "version" then do
      let v ← extract_value_str node "version"
      pure { h0 with version := v.getD "" }
    else pure h0
  let h2 ← if hasKey node "unit" then do
      let u ← extract_value_str node "unit"
      pure { h1 with unit := u.getD "" }
    else pure h1
  let h3 ← match ylookup node "precision" with
    | some pv => do
      let n ← pyInt pv
      pure { h2 with precision := n }
    | none => pure h2
  match ylookup node "include" with
  | some (.ylist incs) => do
    let resolvedIncs ← collectIncludes fs ctx incs
    pure { h3 with includes := h3.includes ++ resolvedIncs }
  | some _ => pure h3
  | none => pure h3

end BaseParser

/-- The `TypeError` raised by `pathlib.Path(value)` when the value is not a
string (used where the source passes a raw node to `resolve_path`). -/
def pathArgStr (v : YVal) : Except PyErr String :=
  match v with
  | .ystr s => pure s
  | v => .error (.typeError
      ("argument should be a str or an os.PathLike object, not '" ++ pyTypeName v ++ "'"))

/-! ## `DbvParser` (`dbv_parser.py`) -/

namespace DbvParser

/-- The required-`type` check of `DbvParser._parse_chiplet`: a chiplet
without a `type` key raises a `ParserError` naming the chiplet; otherwise
`type` is the `str()` of the value. -/
def typeStep (c : ChipletDef) (node : List (String × YVal)) : Except PyErr ChipletDef :=
  match ylookup node "type" with
  | none => do
    BaseParser.log_error ("Chiplet type is required for chiplet " ++ c.name)
    pure c
  | some tv => pure { c with type := pyStr tv }

/-- The `design_area` parse of `DbvParser._parse_chiplet`: a 2-element
sequence sets `design_width` and `design_height` through `float(...)`; any
other present value raises a `ParserError` naming the chiplet. -/
def designAreaStep (c : ChipletDef) (node : List (String × YVal)) :
    Except PyErr ChipletDef :=
  match ylookup node "design_area" with
  | none => pure c
  | some (.ylist [a, b]) => do
    let w ← pyFloat a
    let h ← pyFloat b
    pure { c with design_width := w, design_height := h }
  | some _ => do
    BaseParser.log_error ("design_area must have 2 values for chiplet " ++ c.name)
    pure c

/-- The `offset` parse of `DbvParser._parse_chiplet`. -/
def offsetStep (c : ChipletDef) (node : List (String × YVal)) :
    Except PyErr ChipletDef :=
  match ylookup node "offset" with
  | none => pure c
  | some v => do
    let off ← BaseParser.parse_coordinate v
    pure { c with offset := off }

/-- The `seal_ring_width` parse of `DbvParser._parse_chiplet`: exactly 4
values, otherwise a `ParserError` naming the chiplet. -/
def sealRingStep (c : ChipletDef) (node : List (String × YVal)) :
    Except PyErr ChipletDef :=
  match ylookup node "seal_ring_width" with
  | none => pure c
  | some (.ylist [a, b, d, e]) => do
    let vl ← pyFloat a
    let vb ← pyFloat b
    let vr ← pyFloat d
    let vt ← pyFloat e
    pure { c with seal_ring_left := vl, seal_ring_bottom := vb,
                  seal_ring_right := vr, seal_ring_top := vt }
  | some _ => do
    BaseParser.log_error ("seal_ring_width must have 4 values for chiplet " ++ c.name)
    pure c

/-- The `scribe_line_remaining_width` parse of `DbvParser._parse_chiplet`:
exactly 4 values, otherwise a `ParserError` naming the chiplet. -/
def scribeLineStep (c : ChipletDef) (node : List (String × YVal)) :
    Except PyErr ChipletDef :=
  match ylookup node "scribe_line_remaining_width" with
  | none => pure c
  | some (.ylist [a, b, d, e]) => do
    let vl ← pyFloat a
    let vb ← pyFloat b
    let vr ← pyFloat d
    let vt ← pyFloat e
    pure { c with scribe_line_left := vl, scribe_line_bottom := vb,
                  scribe_line_right := vr, scribe_line_top := vt }
  | some _ => do
    BaseParser.log_error
      ("scribe_line_remaining_width must have 4 values for chiplet " ++ c.name)
    pure c

/-- The `thickness` parse of `DbvParser._parse_chiplet`: a bare
`float(...)`, so a bad value raises a raw `ValueError`/`TypeError`. -/
def thicknessStep (c : ChipletDef) (node : List (String × YVal)) :
    Except PyErr ChipletDef :=
  match ylookup node "thickness" with
  | none => pure c
  | some v => do
    let t ← pyFloat v
    pure { c with thickness := t }

/-- The `shrink` parse of `DbvParser._parse_chiplet` (bare `float(...)`). -/
def shrinkStep (c : ChipletDef) (node : List (String × YVal)) :
    Except PyErr ChipletDef :=
  match ylookup node "shrink" with
  | none => pure c
  | some v => do
    let sh ← pyFloat v
    pure { c with shrink := sh }

/-- The `tsv` parse of `DbvParser._parse_chiplet` (`bool(...)`, total). -/
def tsvStep (c : ChipletDef) (node : List (String × YVal)) :
    Except PyErr ChipletDef :=
  match ylookup node "tsv" with
  | none => pure c
  | some v => pure { c with tsv := pyBool v }

/-- `DbvParser._parse_region`: all fields optional; `bmap`/`pmap` are
resolved against the current file, the rest are strings or coordinates. -/
def parse_region (ctx : PathCtx) (r : ChipletRegion) (node : List (String × YVal)) :
    Except PyErr ChipletRegion := do
  let r1 ← match ylookup node "bmap" with
    | none => pure r
    | some v => do
      let s ← pathArgStr v
      pure { r with bmap := BaseParser.resolve_path ctx s }
  let r2 ← match ylookup node "pmap" with
    | none => pure r1
    | some v => do
      let s ← pathArgStr v
      pure { r1 with pmap := BaseParser.resolve_path ctx s }
  let r3 := match ylookup node "side" with
    | none => r2
    | some v => { r2 with side := pyStr v }
  let r4 := match ylookup node "layer" with
    | none => r3
    | some v => { r3 with layer := pyStr v }
  let r5 := match ylookup node "gds_layer" with
    | none => r4
    | some v => { r4 with gds_layer := pyStr v }
  match ylookup node "coords" with
  | none => pure r5
  | some v => do
    let cs ← BaseParser.parse_coordinates v
    pure { r5 with coords := cs }

/-- The region loop of `DbvParser._parse_regions`. -/
def parse_regions (ctx : PathCtx) : List (String × YVal) →
    Except PyErr (List (String × ChipletRegion))
  | [] => pure []
  | (name, v) :: rest => do
    let m ← asMap v
    let r ← parse_region ctx { name := name } m
    let restR ← parse_regions ctx rest
    pure ((name, r) :: restR)

/-- The scalar-or-list loop of `DbvParser._parse_external`: each element is
`str()`-ed and resolved with wildcard support. -/
def resolveEach (fs : FS) (ctx : PathCtx) : List YVal → Except PyErr (List String)
  | [] => pure []
  | x :: rest => do
    let here ← BaseParser.resolve_paths fs ctx (pyStr x)
    let more ← resolveEach fs ctx rest
    pure (here ++ more)

/-- Scalar-or-list normalization for an external file field. -/
def scalarOrList (fs : FS) (ctx : PathCtx) (v : YVal) : Except PyErr (List String) :=
  match v with
  | .ylist xs => resolveEach fs ctx xs
  | x => BaseParser.resolve_paths fs ctx (pyStr x)

/-- `DbvParser._parse_external`: LEF / APR tech / liberty files accept a
scalar or a list, normalized to a list of resolved paths; the DEF file is a
single resolved path. The chiplet name parameter exists in the source for
error context but is unused. -/
def parse_external (fs : FS) (ctx : PathCtx) (node : List (String × YVal))
    (_chiplet_name : String) : Except PyErr ChipletExternal := do
  let e0 : ChipletExternal := {}
  let e1 ← match ylookup node "LEF_file" with
    | none => pure e0
    | some v => do
      let files ← scalarOrList fs ctx v
      pure { e0 with lef_files := e0.lef_files ++ files }
  let e2 ← match ylookup node "APR_tech_file" with
    | none => pure e1
    | some v => do
      let files ← scalarOrList fs ctx v
      pure { e1 with tech_lef_files := e1.tech_lef_files ++ files }
  let e3 ← match ylookup node "liberty_file" with
    | none => pure e2
    | some v => do
      let files ← scalarOrList fs ctx v
      pure { e2 with lib_files := e2.lib_files ++ files }
  match ylookup node "DEF_file" with
  | none => pure e3
  | some v => do
    let s ← pathArgStr v
    pure { e3 with def_file := BaseParser.resolve_path ctx s }

/-- The `regions` parse of `DbvParser._parse_chiplet`. -/
def regionsStep (ctx : PathCtx) (c : ChipletDef) (node : List (String × YVal)) :
    Except PyErr ChipletDef :=
  match ylookup node "regions" with
  | none => pure c
  | some v => do
    let m ← asMap v
    let rs ← parse_regions ctx m
    pure { c with regions := rs }

/-- The `external` parse of `DbvParser._parse_chiplet`. -/
def externalStep (fs : FS) (ctx : PathCtx) (c : ChipletDef)
    (node : List (String × YVal)) : Except PyErr ChipletDef :=
  match ylookup node "external" with
  | none => pure c
  | some v => do
    let m ← asMap v
    let ext ← parse_external fs ctx m c.name
    pure { c with external := ext }

/-- `DbvParser._parse_chiplet`: the fields of one chiplet definition,
parsed in source order. -/
def parse_chiplet (fs : FS) (ctx : PathCtx) (c0 : ChipletDef)
    (node : List (String × YVal)) : Except PyErr ChipletDef := do
  let c1 ← typeStep c0 node
  let c2 ← designAreaStep c1 node
  let c3 ← offsetStep c2 node
  let c4 ← sealRingStep c3 node
  let c5 ← scribeLineStep c4 node
  let c6 ← thicknessStep c5 node
  let c7 ← shrinkStep c6 node
  let c8 ← tsvStep c7 node
  let c9 ← regionsStep ctx c8 node
  externalStep fs ctx c9 node

/-- The chiplet loop of `DbvParser._parse_chiplet_defs`. -/
def parse_chiplet_defs (fs : FS) (ctx : PathCtx) : List (String × YVal) →
    Except PyErr (List (String × ChipletDef))
  | [] => pure []
  | (name, v) :: rest => do
    let m ← asMap v
    let c ← parse_chiplet fs ctx { name := name } m
    let restDefs ← parse_chiplet_defs fs ctx rest
    pure ((name, c) :: restDefs)

/-- `DbvParser._parse_yaml_content` applied to the decoded root mapping
(a null document decodes to the empty mapping in the source). -/
def parse_yaml_content (fs : FS) (ctx : PathCtx) (root : List (String × YVal)) :
    Except PyErr DbvData := do
  let d0 : DbvData := {}
  let d1 ← match ylookup root "Header" with
    | none => pure d0
    | some hv => do
      let hm ← asMap hv
      let h ← BaseParser.parse_header fs ctx hm
      pure { d0 with header := h }
  match ylookup root "ChipletDef" with
  | none => pure d1
  | some cv => do
    let cm ← asMap cv
    let defs ← parse_chiplet_defs fs ctx cm
    pure { d1 with chiplet_defs := defs }

end DbvParser

/-! ## `DbxParser` (`dbx_parser.py`) -/

namespace DbxParser

/-- Lookup in an association list of parsed entities (`instances[name]`). -/
def lookupA {α : Type} : List (String × α) → String → Option α
  | [], _ => none
  | (k, v) :: rest, key => if k = key then some v else lookupA rest key

/-- In-place update of a dict entry: the first entry with the key gets the
new value and keeps its position (Python dict mutation). -/
def updateA {α : Type} : List (String × α) → String → α → List (String × α)
  | [], _, _ => []
  | (k, x) :: rest, key, v =>
    if k = key then (key, v) :: rest else (k, x) :: updateA rest key v

/-- `DbxParser._parse_design`: the design name is required; an optional
`external` holds a resolved verilog reference. -/
def parse_design (ctx : PathCtx) (node : List (String × YVal)) :
    Except PyErr DesignDef := do
  let _ ← BaseParser.checkRequired (hasKey node "name") "DBX Design name is required"
  let nm ← BaseParser.extract_value_str node "name"
  let d0 : DesignDef := { name := nm.getD "" }
  match ylookup node "external" with
  | none => pure d0
  | some v => do
    let m ← asMap v
    let e0 : DesignExternal := {}
    let e1 ← match ylookup m "verilog_file" with
      | none => pure e0
      | some _ => do
        let vf ← BaseParser.extract_value_str m "verilog_file"
        match vf with
        | none => pure e0
        | some s => pure { e0 with verilog_file := BaseParser.resolve_path ctx s }
    pure { d0 with external := e1 }

/-- `DbxParser._parse_chiplet_inst_external`: optional verilog, sdc and def
file references, each resolved. -/
def parse_chiplet_inst_external (ctx : PathCtx) (node : List (String × YVal)) :
    Except PyErr ChipletInstExternal := do
  let e0 : ChipletInstExternal := {}
  let e1 ← match ylookup node "verilog_file" with
    | none => pure e0
    | some _ => do
      let vf ← BaseParser.extract_value_str node "verilog_file"
      match vf with
      | none => pure e0
      | some s => pure { e0 with verilog_file := BaseParser.resolve_path ctx s }
  let e2 ← match ylookup node "sdc_file" with
    | none => pure e1
    | some _ => do
      let sf ← BaseParser.extract_value_str node "sdc_file"
      match sf with
      | none => pure e1
      | some s => pure { e1 with sdc_file := BaseParser.resolve_path ctx s }
  match ylookup node "def_file" with
  | none => pure e2
  | some _ => do
    let df ← BaseParser.extract_value_str node "def_file"
    match df with
    | none => pure e2
    | some s => pure { e2 with def_file := BaseParser.resolve_path ctx s }

/-- `DbxParser._parse_chiplet_inst`: `reference` is required (a missing key
raises a `ParserError` naming the instance); an optional `external` section
is parsed. -/
def parse_chiplet_inst (ctx : PathCtx) (inst : ChipletInst)
    (node : List (String × YVal)) : Except PyErr ChipletInst := do
  let _ ← BaseParser.checkRequired (hasKey node "reference")
    ("DBX ChipletInst reference is required for instance " ++ inst.name)
  let refv ← BaseParser.extract_value_str node "reference"
  let inst1 := { inst with reference := refv.getD "" }
  match ylookup node "external" with
  | none => pure inst1
  | some v => do
    let m ← asMap v
    let ext ← parse_chiplet_inst_external ctx m
    pure { inst1 with external := ext }

/-- The instance loop of `DbxParser._parse_chiplet_insts`. -/
def parse_chiplet_insts (ctx : PathCtx) : List (String × YVal) →
    Except PyErr (List (String × ChipletInst))
  | [] => pure []
  | (name, v) :: rest => do
    let m ← asMap v
    let inst ← parse_chiplet_inst ctx { name := name } m
    let restInsts ← parse_chiplet_insts ctx rest
    pure ((name, inst) :: restInsts)

/-- `DbxParser._parse_stack_instance`: `loc`, `z` and `orient` are all
required (a missing key raises a `ParserError` naming the instance); `z`
goes through a bare `float(...)`, so a bad value raises a raw
`ValueError`/`TypeError`. Only `loc`, `z` and `orient` are assigned. -/
def parse_stack_instance (inst : ChipletInst) (nodeV : YVal) :
    Except PyErr ChipletInst := do
  let node ← asMap nodeV
  let _ ← BaseParser.checkRequired (hasKey node "loc")
    ("DBX Stack location is required for instance " ++ inst.name)
  let loc ← BaseParser.parse_coordinate ((ylookup node "loc").getD .ynull)
  let _ ← BaseParser.checkRequired (hasKey node "z")
    ("DBX Stack z is required for instance " ++ inst.name)
  let z ← pyFloat ((ylookup node "z").getD .ynull)
  let _ ← BaseParser.checkRequired (hasKey node "orient")
    ("DBX Stack orientation is required for instance " ++ inst.name)
  let orientv ← BaseParser.extract_value_str node "orient"
  pure { inst with loc := loc, z := z, orient := orientv.getD "" }

/-- The entry loop of `DbxParser._parse_stack`: each stack key must name an
existing chiplet instance (otherwise a `ParserError` naming it), whose
placement fields are then updated in place. -/
def parse_stack (insts : List (String × ChipletInst)) : List (String × YVal) →
    Except PyErr (List (String × ChipletInst))
  | [] => pure insts
  | (name, v) :: rest =>
    match lookupA insts name with
    | none => do
      BaseParser.log_error ("DBX Stack instance '" ++ name ++ "' not found in ChipletInst")
      pure insts
    | some inst => do
      let inst2 ← parse_stack_instance inst v
      parse_stack (updateA insts name inst2) rest

/-- `DbxParser._parse_connection`: `top` and `bot` keys are both required
(a missing key raises a `ParserError` naming the connection), but their
values may be the null sentinel, which `extract_value` preserves as the
absence marker; `thickness` goes through a bare `float(...)`. -/
def parse_connection (conn : Connection) (node : List (String × YVal)) :
    Except PyErr Connection := do
  let _ ← BaseParser.checkRequired (hasKey node "top")
    ("DBX Connection top is required for connection " ++ conn.name)
  let topv ← BaseParser.extract_value_str node "top"
  let conn1 := { conn with top := topv }
  let _ ← BaseParser.checkRequired (hasKey node "bot")
    ("DBX Connection bot is required for connection " ++ conn.name)
  let botv ← BaseParser.extract_value_str node "bot"
  let conn2 := { conn1 with bot := botv }
  match ylookup node "thickness" with
  | none => pure conn2
  | some v => do
    let t ← pyFloat v
    pure { conn2 with thickness := t }

/-- The connection loop of `DbxParser._parse_connections`. -/
def parse_connections : List (String × YVal) →
    Except PyErr (List (String × Connection))
  | [] => pure []
  | (name, v) :: rest => do
    let m ← asMap v
    let conn ← parse_connection { name := name, top := some "", bot := some "" } m
    let restConns ← parse_connections rest
    pure ((name, conn) :: restConns)

/-- The `Header` section block of `DbxParser._parse_yaml_content`. -/
def headerStep (fs : FS) (ctx : PathCtx) (d : DbxData) (root : List (String × YVal)) :
    Except PyErr DbxData :=
  match ylookup root "Header" with
  | none => pure d
  | some hv => do
    let hm ← asMap hv
    let h ← BaseParser.parse_header fs ctx hm
    pure { d with header := h }

/-- The `Design` section block of `DbxParser._parse_yaml_content`. -/
def designStep (ctx : PathCtx) (d : DbxData) (root : List (String × YVal)) :
    Except PyErr DbxData :=
  match ylookup root "Design" with
  | none => pure d
  | some dv => do
    let dm ← asMap dv
    let dd ← parse_design ctx dm
    pure { d with design := dd }

/-- The `ChipletInst` section block of `DbxParser._parse_yaml_content`. -/
def instsStep (ctx : PathCtx) (d : DbxData) (root : List (String × YVal)) :
    Except PyErr DbxData :=
  match ylookup root "ChipletInst" with
  | none => pure d
  | some cv => do
    let cm ← asMap cv
    let insts ← parse_chiplet_insts ctx cm
    pure { d with chiplet_instances := insts }

/-- The `Stack` section block of `DbxParser._parse_yaml_content`: it
mutates the instance dict built by the `ChipletInst` block. -/
def stackStep (d : DbxData) (root : List (String × YVal)) : Except PyErr DbxData :=
  match ylookup root "Stack" with
  | none => pure d
  | some sv => do
    let sm ← asMap sv
    let insts2 ← parse_stack d.chiplet_instances sm
    pure { d with chiplet_instances := insts2 }

/-- The `Connection` section block of `DbxParser._parse_yaml_content`. -/
def connectionStep (d : DbxData) (root : List (String × YVal)) : Except PyErr DbxData :=
  match ylookup root "Connection" with
  | none => pure d
  | some conv => do
    let com ← asMap conv
    let conns ← parse_connections com
    pure { d with connections := conns }

/-- `DbxParser._parse_yaml_content` applied to the decoded root mapping:
the sections are processed in the fixed order Header, Design, ChipletInst,
Stack, Connection, with Stack mutating the instances built by ChipletInst
(an absent ChipletInst section leaves the instance dict empty). -/
def parse_yaml_content (fs : FS) (ctx : PathCtx) (root : List (String × YVal)) :
    Except PyErr DbxData := do
  let d1 ← headerStep fs ctx {} root
  let d2 ← designStep ctx d1 root
  let d3 ← instsStep ctx d2 root
  let d4 ← stackStep d3 root
  connectionStep d4 root

end DbxParser

/-! ## `BmapParser` (`bmap_parser.py`) -/

namespace BmapParser

/-- `BmapParser._parse_line`: a non-comment line must whitespace-split into
exactly 6 tokens `bumpInstName bumpCellType x y portName netName`, with `x`
and `y` parsed as floats; the raised errors are plain `ValueError`
messages, wrapped with file and line context by the caller. The line
number parameter exists in the source signature but is unused here. -/
def parse_line (line : String) (_line_number : Nat) : Except String BumpMapEntry :=
  match pySplitWs line with
  | [a, b, xs, ys, p, nn] =>
    (match parseDecimalStr xs with
     | none => .error ("Invalid coordinate format: could not convert string to float: '"
         ++ xs ++ "'")
     | some x =>
       match parseDecimalStr ys with
       | none => .error ("Invalid coordinate format: could not convert string to float: '"
           ++ ys ++ "'")
       | some y => .ok (BumpMapEntry.mk a b x y p nn))
  | ts => .error ("Line has " ++ toString ts.length
      ++ " columns, expected 6. Format: bumpInstName bumpCellType x y portName netName")

/-- The error wrapper of `BmapParser._parse_content`: a `ValueError` from a
line is re-raised with the file path and the 1-based line number. -/
def lineError (fname : String) (n : Nat) (e : String) : PyErr :=
  .valueError ("Bump Map Parser Error: file " ++ fname ++ " Line " ++ toString n
    ++ " - " ++ e)

/-- The line loop of `BmapParser._parse_content`: lines are numbered from
1; a line that strips to empty or starts with `#` is skipped; any other
line is parsed, and a failure aborts the whole parse. -/
def parse_content_lines (fname : String) : Nat → List String →
    Except PyErr (List BumpMapEntry)
  | _, [] => pure []
  | n, l :: rest =>
    let s := pyStrip l
    if s = "" ∨ pyStartsWith s "#" then parse_content_lines fname (n + 1) rest
    else
      match parse_line s n with
      | .error e => .error (lineError fname n e)
      | .ok entry => do
        let restEntries ← parse_content_lines fname (n + 1) rest
        pure (entry :: restEntries)

/-- `BmapParser._parse_content` on a file's text. -/
def parse_content (fname : String) (content : String) : Except PyErr BumpMapData := do
  let entries ← parse_content_lines fname 1 (pySplitLines content)
  pure { entries := entries }

end BmapParser

/-! ## Helper lemmas on the `Except` monad and association lists -/

theorem bind_ok {α β : Type} {x : Except PyErr α} {f : α → Except PyErr β} {b : β}
    (h : x >>= f = .ok b) : ∃ a, x = .ok a ∧ f a = .ok b := by
  cases x with
  | error e => simp [Bind.bind, Except.bind] at h
  | ok a => exact ⟨a, rfl, by simpa [Bind.bind, Except.bind] using h⟩

theorem pure_ok {α : Type} {a b : α} (h : (pure a : Except PyErr α) = .ok b) : a = b := by
  simpa [pure, Except.pure] using h

theorem extract_value_str_ok (node : List (String × YVal)) (key : String) :
    ∃ o, BaseParser.extract_value_str node key = .ok o := by
  unfold BaseParser.extract_value_str
  split
  · exact ⟨none, rfl⟩
  · exact ⟨none, rfl⟩
  · exact ⟨_, rfl⟩

/-! ## Claim C1 — wildcard resolution with a missing directory -/

/-- C1 counterexample: for the wildcard pattern `*.lef` resolved against
current file `/cur/file.3dbx` on a filesystem with no directories,
`resolve_paths` does not return the empty list — `log_error` raises, so the
parse aborts with a Parser Error naming the directory. -/
theorem C1_counterexample :
    BaseParser.resolve_paths { dirs := [], filesIn := [] }
        { current_file_path := some "/cur/file.3dbx", cwd := "/" } "*.lef"
      = Except.error (.parserError "Parser Error: Directory does not exist: /cur")
    ∧ BaseParser.resolve_paths { dirs := [], filesIn := [] }
        { current_file_path := some "/cur/file.3dbx", cwd := "/" } "*.lef"
      ≠ Except.ok [] := by
  constructor
  · decide
  · decide

/-- C1 (corrected): for every pattern containing `*` whose resolved parent
directory does not exist, `resolve_paths` raises a Parser Error naming the
directory (the empty-list return after `log_error` is dead code), aborting
the parse; for every pattern without `*`, it returns a single-element list
containing the resolved path, with no existence check. -/
theorem C1_resolve_paths (fs : FS) (ctx : PathCtx) (pat : String) :
    (pyContainsChar pat '*' = true →
      fs.dirs.contains (BaseParser.pathParent (BaseParser.resolve_path ctx pat)) = false →
      BaseParser.resolve_paths fs ctx pat
        = Except.error (.parserError ("Parser Error: " ++ ("Directory does not exist: "
            ++ BaseParser.pathParent (BaseParser.resolve_path ctx pat)))))
    ∧ (pyContainsChar pat '*' = false →
      BaseParser.resolve_paths fs ctx pat = Except.ok [BaseParser.resolve_path ctx pat]) := by
  constructor
  · intro hstar hdir
    have hdir2 : BaseParser.pathParent (BaseParser.resolve_path ctx pat) ∉ fs.dirs := by
      simpa using hdir
    simp [BaseParser.resolve_paths, hstar, hdir2, BaseParser.log_error,
      Bind.bind, Except.bind]
  · intro hstar
    simp [BaseParser.resolve_paths, hstar, pure, Except.pure]

/-- C1 witness: the corrected claim evaluated at a missing-directory
wildcard pattern and at a plain relative path. -/
theorem C1_witness :
    BaseParser.resolve_paths { dirs := [], filesIn := [] }
        { current_file_path := some "/a/b/design.3dbx", cwd := "/" } "*.lib"
      = Except.error (.parserError ("Parser Error: " ++ ("Directory does not exist: "
          ++ BaseParser.pathParent (BaseParser.resolve_path
              { current_file_path := some "/a/b/design.3dbx", cwd := "/" } "*.lib"))))
    ∧ BaseParser.resolve_paths { dirs := [], filesIn := [] }
        { current_file_path := some "/a/b/design.3dbx", cwd := "/" } "../lib/chip.lef"
      = Except.ok [BaseParser.resolve_path
          { current_file_path := some "/a/b/design.3dbx", cwd := "/" } "../lib/chip.lef"] :=
  ⟨(C1_resolve_paths { dirs := [], filesIn := [] }
      { current_file_path := some "/a/b/design.3dbx", cwd := "/" } "*.lib").1
      (by decide) (by decide),
   (C1_resolve_paths { dirs := [], filesIn := [] }
      { current_file_path := some "/a/b/design.3dbx", cwd := "/" } "../lib/chip.lef").2
      (by decide)⟩

/-! ## Claim C3 — macro values and re-resolution -/

/-- C3 counterexample: with definitions `A -> xBy` then `B -> z` (in that
order), the line `A` is rewritten to `xzy` — the occurrence of `B` that was
introduced by substituting `A`'s value IS replaced by the later-defined
macro `B`, so substitution is not substitution-free of re-resolution as
claimed (the claim would predict `xBy`). -/
theorem C3_counterexample :
    BaseParser.parse_defines "#!define A xBy\n#!define B z\nA" = "xzy"
    ∧ BaseParser.parse_defines "#!define A xBy\n#!define B z\nA" ≠ "xBy" := by
  constructor
  · decide
  · decide

/-- C3 (corrected): each line is rewritten by a single left-to-right pass
over the definition table in definition order — after the last-applied
macro's substitution nothing is re-examined, so a key introduced by a
macro's value is replaced exactly by the macros that come later in the
table (and never by earlier ones). Concretely: with `A -> xBy` before
`B -> z` the line `A` becomes `xzy`, while with `B -> z` before `A -> xBy`
it stays `xBy`. -/
theorem C3_single_pass :
    (∀ ds k v line, BaseParser.resolveLine (ds ++ [(k, v)]) line
        = pyReplace (BaseParser.resolveLine ds line) k v)
    ∧ BaseParser.parse_defines "#!define A xBy\n#!define B z\nA" = "xzy"
    ∧ BaseParser.parse_defines "#!define B z\n#!define A xBy\nA" = "xBy" := by
  refine ⟨?_, by decide, by decide⟩
  intro ds k v line
  simp [BaseParser.resolveLine, List.foldl_append]

/-! ## Claim C5 — `#!define FOO bar` substitution -/

/-- C5 counterexample: the input has the line `#!define FOO bar` followed
by a later line containing `FOO`, but an earlier define (`FO -> X`)
consumes the occurrence first: the output line is `XO`, not `bar` — the
occurrence of `FOO` is not replaced by `bar` as the claim requires for
every such input. -/
theorem C5_counterexample :
    BaseParser.parse_defines "#!define FO X\n#!define FOO bar\nFOO" = "XO"
    ∧ BaseParser.parse_defines "#!define FO X\n#!define FOO bar\nFOO" ≠ "bar" := by
  constructor
  · decide
  · decide

/-- C5 (corrected): when `#!define FOO bar` is the only define directive of
the input, every later line has each occurrence of `FOO` — plain substring
replacement, so also an occurrence inside unrelated text — replaced by
`bar`, and the define line itself is absent from the output; with other
defines present an earlier definition may rewrite the occurrence first. -/
theorem C5_define_substitution :
    (∀ rest, (∀ l ∈ rest, pyStartsWith l "#!define" = false) →
      BaseParser.processLines [] ("#!define FOO bar" :: rest)
        = rest.map (fun l => pyReplace l "FOO" "bar"))
    ∧ BaseParser.parse_defines "#!define FOO bar\nx FOO y FOOD" = "x bar y barD" := by
  constructor
  · intro rest hrest
    have key : ∀ (rs : List String), (∀ l ∈ rs, pyStartsWith l "#!define" = false) →
        BaseParser.processLines [("FOO", "bar")] rs
          = rs.map (fun l => pyReplace l "FOO" "bar") := by
      intro rs
      induction rs with
      | nil => intro _; rfl
      | cons l rest2 ih =>
        intro h
        have hl := h l (List.mem_cons_self l rest2)
        have h2 : ∀ x ∈ rest2, pyStartsWith x "#!define" = false :=
          fun x hx => h x (List.mem_cons_of_mem l hx)
        simp only [BaseParser.processLines, hl, Bool.false_eq_true, if_false,
          List.map_cons]
        rw [ih h2]
        rfl
    have h0 : BaseParser.processLines [] ("#!define FOO bar" :: rest)
        = BaseParser.processLines [("FOO", "bar")] rest := rfl
    rw [h0, key rest hrest]
  · decide


/-- C5 witness: the corrected claim evaluated on the two-line input whose
second line contains `FOO` inside the unrelated word `FOOD`. -/
theorem C5_witness :
    BaseParser.processLines [] ("#!define FOO bar" :: ["see FOOD"])
      = ["see FOOD"].map (fun l => pyReplace l "FOO" "bar") :=
  C5_define_substitution.1 ["see FOOD"] (by decide)

/-! ## Claim C8 — the bump-map line format -/

/-- A bump-map line that strips to empty or to a `#`-comment is skipped. -/
theorem bmap_skip_lines (fname : String) (n : Nat) (ls : List String)
    (h : ∀ l ∈ ls, pyStrip l = "" ∨ pyStartsWith (pyStrip l) "#" = true) :
    BmapParser.parse_content_lines fname n ls = .ok [] := by
  induction ls generalizing n with
  | nil => rfl
  | cons l rest ih =>
    have hl := h l (List.mem_cons_self l rest)
    have h2 : ∀ x ∈ rest, pyStrip x = "" ∨ pyStartsWith (pyStrip x) "#" = true :=
      fun x hx => h x (List.mem_cons_of_mem l hx)
    have hcond : pyStrip l = "" ∨ pyStartsWith (pyStrip l) "#" = true := hl
    simp only [BmapParser.parse_content_lines, if_pos hcond]
    exact ih (n + 1) h2

/-- C8 (confirmed): blank lines and `#`-comment lines are skipped; the line
`b0 TYPE1 10.5 20.25 P1 NET1` parses to the expected entry (as a single
line it yields a one-entry parse); and a 5- or 7-token line aborts the
whole parse with an error citing the file and the 1-based line number. -/
theorem C8_bmap_lines :
    (∀ n, BmapParser.parse_line "b0 TYPE1 10.5 20.25 P1 NET1" n
      = .ok (BumpMapEntry.mk "b0" "TYPE1" (mkRat 21 2) (mkRat 81 4) "P1" "NET1"))
    ∧ (∀ fname, BmapParser.parse_content fname "b0 TYPE1 10.5 20.25 P1 NET1"
      = .ok { entries := [BumpMapEntry.mk "b0" "TYPE1" (mkRat 21 2) (mkRat 81 4) "P1" "NET1"] })
    ∧ (∀ fname content,
        (∀ l ∈ pySplitLines content, pyStrip l = "" ∨ pyStartsWith (pyStrip l) "#" = true) →
        BmapParser.parse_content fname content = .ok { entries := [] })
    ∧ (∀ fname, BmapParser.parse_content fname "a b 1 2 e"
      = .error (BmapParser.lineError fname 1
          "Line has 5 columns, expected 6. Format: bumpInstName bumpCellType x y portName netName"))
    ∧ (∀ fname, BmapParser.parse_content fname "a b c d e f g"
      = .error (BmapParser.lineError fname 1
          "Line has 7 columns, expected 6. Format: bumpInstName bumpCellType x y portName netName")) := by
  refine ⟨fun n => rfl, fun fname => rfl, ?_, fun fname => rfl, fun fname => rfl⟩
  intro fname content h
  unfold BmapParser.parse_content
  rw [bmap_skip_lines fname 1 (pySplitLines content) h]
  rfl

/-- C8 witness: the skip-lines part of the claim evaluated on a
comment-and-blank-lines file. -/
theorem C8_witness :
    BmapParser.parse_content "f.bmap" "# header comment\n   \n# another"
      = .ok { entries := [] } :=
  C8_bmap_lines.2.2.1 "f.bmap" "# header comment\n   \n# another" (by decide)

/-! ## Claim C7 — connection endpoints and the null sentinel -/

/-- C7 (confirmed): a connection whose source mapping lacks the `top` key
(or, with `top` present, the `bot` key) fails with a Parser Error naming
the connection; a connection with both keys present and `bot` bound to the
null sentinel is accepted with its `bot` field set to the sentinel
(`none`), not treated as an error. -/
theorem C7_connection (name : String) (node : List (String × YVal)) :
    (hasKey node "top" = false →
      DbxParser.parse_connection { name := name, top := some "", bot := some "" } node
        = .error (.parserError ("Parser Error: "
            ++ ("DBX Connection top is required for connection " ++ name))))
    ∧ (hasKey node "top" = true → hasKey node "bot" = false →
      DbxParser.parse_connection { name := name, top := some "", bot := some "" } node
        = .error (.parserError ("Parser Error: "
            ++ ("DBX Connection bot is required for connection " ++ name))))
    ∧ (∀ tv, ylookup node "top" = some tv → ylookup node "bot" = some .ynull →
      ylookup node "thickness" = none →
      ∃ c, DbxParser.parse_connection { name := name, top := some "", bot := some "" } node
          = .ok c ∧ c.bot = none ∧ c.name = name) := by
  refine ⟨?_, ?_, ?_⟩
  · intro htop
    simp [DbxParser.parse_connection, BaseParser.checkRequired, htop, BaseParser.log_error, Bind.bind, Except.bind]
  · intro htop hbot
    obtain ⟨o, ho⟩ := extract_value_str_ok node "top"
    simp [DbxParser.parse_connection, BaseParser.checkRequired, htop, hbot, ho,
      BaseParser.log_error, Bind.bind, Except.bind, pure, Except.pure]
  · intro tv htv hbot hth
    have htop : hasKey node "top" = true := by simp [hasKey, htv]
    have hbotk : hasKey node "bot" = true := by simp [hasKey, hbot]
    obtain ⟨o, ho⟩ := extract_value_str_ok node "top"
    have hbotx : BaseParser.extract_value_str node "bot" = .ok none := by
      simp [BaseParser.extract_value_str, hbot]
    refine ⟨{ name := name, top := o, bot := none, thickness := mkRat 0 1 }, ?_, rfl, rfl⟩
    simp [DbxParser.parse_connection, BaseParser.checkRequired, htop, hbotk, ho, hbotx, hth,
      Bind.bind, Except.bind, pure, Except.pure]

/-- C7 witness: the three cases of the claim at concrete connection
nodes — missing `top`, missing `bot`, and a null `bot` sentinel. -/
theorem C7_witness :
    DbxParser.parse_connection { name := "n0", top := some "", bot := some "" }
        [("bot", YVal.ynull)]
      = .error (.parserError ("Parser Error: "
          ++ ("DBX Connection top is required for connection " ++ "n0")))
    ∧ DbxParser.parse_connection { name := "n1", top := some "", bot := some "" }
        [("top", YVal.ystr "a.regions.r")]
      = .error (.parserError ("Parser Error: "
          ++ ("DBX Connection bot is required for connection " ++ "n1")))
    ∧ ∃ c, DbxParser.parse_connection { name := "n2", top := some "", bot := some "" }
        [("top", YVal.ystr "a.regions.r"), ("bot", YVal.ynull)]
      = .ok c ∧ c.bot = none ∧ c.name = "n2" :=
  ⟨(C7_connection "n0" [("bot", YVal.ynull)]).1 (by decide),
   (C7_connection "n1" [("top", YVal.ystr "a.regions.r")]).2.1 (by decide) (by decide),
   (C7_connection "n2" [("top", YVal.ystr "a.regions.r"), ("bot", YVal.ynull)]).2.2
     (YVal.ystr "a.regions.r") rfl rfl rfl⟩

/-! ## Claim C2 — error kinds of failed validations -/

/-- C2 counterexample: a stack entry whose `z` is the non-numeric string
`abc` (with a well-formed `loc`) makes `_parse_stack_instance` raise the
raw `ValueError` of the bare `float(...)` call — not the "Parser Error"
kind — for any candidate Parser Error message. -/
theorem C2_counterexample :
    DbxParser.parse_stack_instance { name := "i0" }
        (.ymap [("loc", .ylist [.yfloat (mkRat 1 1), .yfloat (mkRat 2 1)]),
                ("z", .ystr "abc"), ("orient", .ystr "R0")])
      = .error (.valueError "could not convert string to float: 'abc'")
    ∧ ∀ m, DbxParser.parse_stack_instance { name := "i0" }
        (.ymap [("loc", .ylist [.yfloat (mkRat 1 1), .yfloat (mkRat 2 1)]),
                ("z", .ystr "abc"), ("orient", .ystr "R0")])
      ≠ .error (.parserError m) :=
  ⟨by decide, fun m h => nomatch h⟩

/-- C2 (corrected): every validation failure aborts the current file's
parse with no partial result, but not all failures carry the single
"Parser Error" kind: a check raised through `log_error` (exemplified here
by a Stack entry missing its required `loc`) is a Parser Error, while a
bad numeric conversion at the bare `float(...)`/`int(...)` call sites — a
non-numeric Stack `z`, a non-integer Header `precision` string, a
non-numeric chiplet `thickness` — escapes as a raw `ValueError`, and a
malformed bump-map line likewise aborts with a raw `ValueError` citing
file and line, never a Parser Error. The final conjunct shows a bad `z`
aborting the whole document parse with only the error as result. -/
theorem C2_raw_value_errors :
    (∀ (inst : ChipletInst) (node : List (String × YVal)) (locc : Coordinate) (s : String),
      BaseParser.parse_coordinate ((ylookup node "loc").getD .ynull) = .ok locc →
      hasKey node "loc" = true →
      ylookup node "z" = some (.ystr s) →
      parseDecimalStr s = none →
      DbxParser.parse_stack_instance inst (.ymap node)
        = .error (.valueError ("could not convert string to float: '" ++ s ++ "'")))
    ∧ (∀ (fs : FS) (ctx : PathCtx) (node : List (String × YVal)) (s : String),
      ylookup node "precision" = some (.ystr s) →
      parseIntStr s = none →
      BaseParser.parse_header fs ctx node
        = .error (.valueError ("invalid literal for int() with base 10: '" ++ s ++ "'")))
    ∧ (∀ (fs : FS) (ctx : PathCtx) (name : String) (node : List (String × YVal)) (s : String),
      hasKey node "type" = true →
      ylookup node "design_area" = none →
      ylookup node "offset" = none →
      ylookup node "seal_ring_width" = none →
      ylookup node "scribe_line_remaining_width" = none →
      ylookup node "thickness" = some (.ystr s) →
      parseDecimalStr s = none →
      DbvParser.parse_chiplet fs ctx { name := name } node
        = .error (.valueError ("could not convert string to float: '" ++ s ++ "'")))
    ∧ (∀ (inst : ChipletInst) (node : List (String × YVal)),
      hasKey node "loc" = false →
      DbxParser.parse_stack_instance inst (.ymap node)
        = .error (.parserError ("Parser Error: "
            ++ ("DBX Stack location is required for instance " ++ inst.name))))
    ∧ (∀ fname,
      BmapParser.parse_content fname "a b 1 2 e"
        = .error (.valueError ("Bump Map Parser Error: file " ++ fname ++ " Line "
            ++ toString (1 : Nat) ++ " - "
            ++ "Line has 5 columns, expected 6. Format: bumpInstName bumpCellType x y portName netName"))
      ∧ ∀ m, BmapParser.parse_content fname "a b 1 2 e" ≠ .error (.parserError m))
    ∧ DbxParser.parse_yaml_content {} {}
        [("ChipletInst", .ymap [("i0", .ymap [("reference", .ystr "c0")])]),
         ("Stack", .ymap [("i0", .ymap [("loc", .ylist [.yfloat (mkRat 0 1), .yfloat (mkRat 0 1)]),
                                        ("z", .ystr "abc")])])]
      = .error (.valueError "could not convert string to float: 'abc'") := by
  refine ⟨?_, ?_, ?_, ?_, fun fname => ⟨rfl, fun m h => nomatch h⟩, by decide⟩
  · intro inst node locc s hloc hkloc hz hs
    have hkz : hasKey node "z" = true := by simp [hasKey, hz]
    simp [DbxParser.parse_stack_instance, BaseParser.checkRequired, asMap, hkloc, hloc,
      hkz, hz, pyFloat, hs, Bind.bind, Except.bind, pure, Except.pure]
  · intro fs ctx node s hp hs
    obtain ⟨v1, hv1⟩ := extract_value_str_ok node "version"
    obtain ⟨v2, hv2⟩ := extract_value_str_ok node "unit"
    cases hkv : hasKey node "version" <;> cases hku : hasKey node "unit" <;>
      simp [BaseParser.parse_header, hkv, hku, hv1, hv2, hp, hs, pyInt,
        Bind.bind, Except.bind, pure, Except.pure]
  · intro fs ctx name node s htype hda hoff hsr hsc hth hs
    obtain ⟨tv, htv⟩ : ∃ tv, ylookup node "type" = some tv := by
      simpa [hasKey, Option.isSome_iff_exists] using htype
    simp [DbvParser.parse_chiplet, DbvParser.typeStep, DbvParser.designAreaStep,
      DbvParser.offsetStep, DbvParser.sealRingStep, DbvParser.scribeLineStep,
      DbvParser.thicknessStep, htv, hda, hoff, hsr, hsc, hth, pyFloat, hs,
      Bind.bind, Except.bind, pure, Except.pure]
  · intro inst node hloc
    simp [DbxParser.parse_stack_instance, BaseParser.checkRequired, asMap, hloc,
      BaseParser.log_error, Bind.bind, Except.bind, pure, Except.pure]

/-- C2 witness: the three bad-conversion sites and the Parser-Error-kind
site evaluated at concrete nodes. -/
theorem C2_witness :
    DbxParser.parse_stack_instance { name := "i0" }
        (.ymap [("loc", .ylist [.yfloat (mkRat 1 1), .yfloat (mkRat 2 1)]), ("z", .ystr "zz")])
      = .error (.valueError ("could not convert string to float: '" ++ "zz" ++ "'"))
    ∧ BaseParser.parse_header {} {} [("precision", .ystr "2.5")]
      = .error (.valueError ("invalid literal for int() with base 10: '" ++ "2.5" ++ "'"))
    ∧ DbvParser.parse_chiplet {} {} { name := "c0" } [("type", .ystr "t"), ("thickness", .ystr "th")]
      = .error (.valueError ("could not convert string to float: '" ++ "th" ++ "'"))
    ∧ DbxParser.parse_stack_instance { name := "i9" } (.ymap [("z", .yfloat (mkRat 1 1))])
      = .error (.parserError ("Parser Error: "
          ++ ("DBX Stack location is required for instance " ++ "i9"))) :=
  ⟨C2_raw_value_errors.1 { name := "i0" }
      [("loc", .ylist [.yfloat (mkRat 1 1), .yfloat (mkRat 2 1)]), ("z", .ystr "zz")]
      { x := mkRat 1 1, y := mkRat 2 1 } "zz" (by decide) (by decide) rfl rfl,
   C2_raw_value_errors.2.1 {} {} [("precision", .ystr "2.5")] "2.5" rfl rfl,
   C2_raw_value_errors.2.2.1 {} {} "c0" [("type", .ystr "t"), ("thickness", .ystr "th")] "th"
     (by decide) rfl rfl rfl rfl rfl rfl,
   C2_raw_value_errors.2.2.2.1 { name := "i9" } [("z", .yfloat (mkRat 1 1))] (by decide)⟩

/-! ## Frame lemmas for the chiplet-definition parse steps -/

theorem typeStep_frame {c c' : ChipletDef} {node : List (String × YVal)}
    (h : DbvParser.typeStep c node = .ok c') :
    c'.name = c.name ∧ c'.design_width = c.design_width
      ∧ c'.design_height = c.design_height := by
  unfold DbvParser.typeStep at h
  split at h
  · obtain ⟨u, h1, _⟩ := bind_ok h
    simp [BaseParser.log_error] at h1
  · cases pure_ok h
    exact ⟨rfl, rfl, rfl⟩

theorem designAreaStep_frame {c c' : ChipletDef} {node : List (String × YVal)}
    (h : DbvParser.designAreaStep c node = .ok c') :
    c'.name = c.name ∧ c'.type = c.type := by
  unfold DbvParser.designAreaStep at h
  split at h
  · cases pure_ok h
    exact ⟨rfl, rfl⟩
  · obtain ⟨w, h1, h⟩ := bind_ok h
    obtain ⟨hh, h2, h⟩ := bind_ok h
    cases pure_ok h
    exact ⟨rfl, rfl⟩
  · obtain ⟨u, h1, _⟩ := bind_ok h
    simp [BaseParser.log_error] at h1

theorem offsetStep_frame {c c' : ChipletDef} {node : List (String × YVal)}
    (h : DbvParser.offsetStep c node = .ok c') :
    c'.name = c.name ∧ c'.type = c.type ∧ c'.design_width = c.design_width
      ∧ c'.design_height = c.design_height := by
  unfold DbvParser.offsetStep at h
  split at h
  · cases pure_ok h
    exact ⟨rfl, rfl, rfl, rfl⟩
  · obtain ⟨off, h1, h⟩ := bind_ok h
    cases pure_ok h
    exact ⟨rfl, rfl, rfl, rfl⟩

theorem sealRingStep_frame {c c' : ChipletDef} {node : List (String × YVal)}
    (h : DbvParser.sealRingStep c node = .ok c') :
    c'.name = c.name ∧ c'.type = c.type ∧ c'.design_width = c.design_width
      ∧ c'.design_height = c.design_height := by
  unfold DbvParser.sealRingStep at h
  split at h
  · cases pure_ok h
    exact ⟨rfl, rfl, rfl, rfl⟩
  · obtain ⟨v1, h1, h⟩ := bind_ok h
    obtain ⟨v2, h2, h⟩ := bind_ok h
    obtain ⟨v3, h3, h⟩ := bind_ok h
    obtain ⟨v4, h4, h⟩ := bind_ok h
    cases pure_ok h
    exact ⟨rfl, rfl, rfl, rfl⟩
  · obtain ⟨u, h1, _⟩ := bind_ok h
    simp [BaseParser.log_error] at h1

theorem scribeLineStep_frame {c c' : ChipletDef} {node : List (String × YVal)}
    (h : DbvParser.scribeLineStep c node = .ok c') :
    c'.name = c.name ∧ c'.type = c.type ∧ c'.design_width = c.design_width
      ∧ c'.design_height = c.design_height := by
  unfold DbvParser.scribeLineStep at h
  split at h
  · cases pure_ok h
    exact ⟨rfl, rfl, rfl, rfl⟩
  · obtain ⟨v1, h1, h⟩ := bind_ok h
    obtain ⟨v2, h2, h⟩ := bind_ok h
    obtain ⟨v3, h3, h⟩ := bind_ok h
    obtain ⟨v4, h4, h⟩ := bind_ok h
    cases pure_ok h
    exact ⟨rfl, rfl, rfl, rfl⟩
  · obtain ⟨u, h1, _⟩ := bind_ok h
    simp [BaseParser.log_error] at h1

theorem thicknessStep_frame {c c' : ChipletDef} {node : List (String × YVal)}
    (h : DbvParser.thicknessStep c node = .ok c') :
    c'.name = c.name ∧ c'.type = c.type ∧ c'.design_width = c.design_width
      ∧ c'.design_height = c.design_height := by
  unfold DbvParser.thicknessStep at h
  split at h
  · cases pure_ok h
    exact ⟨rfl, rfl, rfl, rfl⟩
  · obtain ⟨t, h1, h⟩ := bind_ok h
    cases pure_ok h
    exact ⟨rfl, rfl, rfl, rfl⟩

theorem shrinkStep_frame {c c' : ChipletDef} {node : List (String × YVal)}
    (h : DbvParser.shrinkStep c node = .ok c') :
    c'.name = c.name ∧ c'.type = c.type ∧ c'.design_width = c.design_width
      ∧ c'.design_height = c.design_height := by
  unfold DbvParser.shrinkStep at h
  split at h
  · cases pure_ok h
    exact ⟨rfl, rfl, rfl, rfl⟩
  · obtain ⟨t, h1, h⟩ := bind_ok h
    cases pure_ok h
    exact ⟨rfl, rfl, rfl, rfl⟩

theorem tsvStep_frame {c c' : ChipletDef} {node : List (String × YVal)}
    (h : DbvParser.tsvStep c node = .ok c') :
    c'.name = c.name ∧ c'.type = c.type ∧ c'.design_width = c.design_width
      ∧ c'.design_height = c.design_height := by
  unfold DbvParser.tsvStep at h
  split at h
  · cases pure_ok h
    exact ⟨rfl, rfl, rfl, rfl⟩
  · cases pure_ok h
    exact ⟨rfl, rfl, rfl, rfl⟩

theorem regionsStep_frame {ctx : PathCtx} {c c' : ChipletDef} {node : List (String × YVal)}
    (h : DbvParser.regionsStep ctx c node = .ok c') :
    c'.name = c.name ∧ c'.type = c.type ∧ c'.design_width = c.design_width
      ∧ c'.design_height = c.design_height := by
  unfold DbvParser.regionsStep at h
  split at h
  · cases pure_ok h
    exact ⟨rfl, rfl, rfl, rfl⟩
  · obtain ⟨m, h1, h⟩ := bind_ok h
    obtain ⟨rs, h2, h⟩ := bind_ok h
    cases pure_ok h
    exact ⟨rfl, rfl, rfl, rfl⟩

theorem externalStep_frame {fs : FS} {ctx : PathCtx} {c c' : ChipletDef}
    {node : List (String × YVal)}
    (h : DbvParser.externalStep fs ctx c node = .ok c') :
    c'.name = c.name ∧ c'.type = c.type ∧ c'.design_width = c.design_width
      ∧ c'.design_height = c.design_height := by
  unfold DbvParser.externalStep at h
  split at h
  · cases pure_ok h
    exact ⟨rfl, rfl, rfl, rfl⟩
  · obtain ⟨m, h1, h⟩ := bind_ok h
    obtain ⟨ext, h2, h⟩ := bind_ok h
    cases pure_ok h
    exact ⟨rfl, rfl, rfl, rfl⟩

/-! ## Claim C9 — the required `type` field of a chiplet -/

/-- A chiplet node without a `type` key makes `_parse_chiplet` fail with
the "type is required" Parser Error naming the chiplet. -/
theorem chiplet_type_missing (fs : FS) (ctx : PathCtx) (c0 : ChipletDef)
    (m : List (String × YVal)) (h : hasKey m "type" = false) :
    DbvParser.parse_chiplet fs ctx c0 m
      = .error (.parserError ("Parser Error: "
          ++ ("Chiplet type is required for chiplet " ++ c0.name))) := by
  cases hx : ylookup m "type" with
  | some v => simp [hasKey, hx] at h
  | none =>
    simp [DbvParser.parse_chiplet, DbvParser.typeStep, hx, BaseParser.log_error,
      Bind.bind, Except.bind]

/-- A `ChipletDef` map (of mapping-valued entries) containing an entry
without a `type` key makes `_parse_chiplet_defs` fail. -/
theorem chiplet_defs_missing_type (fs : FS) (ctx : PathCtx) :
    ∀ (cmap : List (String × YVal)) (name : String) (m : List (String × YVal)),
    (name, YVal.ymap m) ∈ cmap → hasKey m "type" = false →
    (∀ p ∈ cmap, ∃ mm, p.2 = YVal.ymap mm) →
    ∃ e, DbvParser.parse_chiplet_defs fs ctx cmap = .error e := by
  intro cmap
  induction cmap with
  | nil => intro name m hmem _ _; cases hmem
  | cons p rest ih =>
    intro name m hmem htype hall
    rcases List.mem_cons.mp hmem with heq | hmem2
    · cases heq
      refine ⟨.parserError ("Parser Error: "
        ++ ("Chiplet type is required for chiplet " ++ name)), ?_⟩
      simp only [DbvParser.parse_chiplet_defs, asMap, Bind.bind, Except.bind,
        pure, Except.pure]
      rw [chiplet_type_missing fs ctx { name := name } m htype]
    · obtain ⟨mm, hmm⟩ := hall p (List.mem_cons_self p rest)
      obtain ⟨k, v⟩ := p
      simp only at hmm
      subst hmm
      obtain ⟨e, he⟩ := ih name m hmem2 htype
        (fun q hq => hall q (List.mem_cons_of_mem _ hq))
      cases hc : DbvParser.parse_chiplet fs ctx { name := k } mm with
      | error e2 =>
        refine ⟨e2, ?_⟩
        simp only [DbvParser.parse_chiplet_defs, asMap, Bind.bind, Except.bind,
          pure, Except.pure]
        rw [hc]
      | ok c =>
        refine ⟨e, ?_⟩
        simp only [DbvParser.parse_chiplet_defs, asMap, Bind.bind, Except.bind,
          pure, Except.pure]
        rw [hc, he]

/-- C9 (confirmed): every entry of the `ChipletDef` map must contain a
`type` key — a chiplet lacking it fails the parse of the whole map with
the "type is required" Parser Error naming that chiplet — and on success
the chiplet's `type` field is the string value of that key. -/
theorem C9_chiplet_type (fs : FS) (ctx : PathCtx) (cmap : List (String × YVal))
    (name : String) (m : List (String × YVal)) :
    ((name, YVal.ymap m) ∈ cmap → hasKey m "type" = false →
      (∀ p ∈ cmap, ∃ mm, p.2 = YVal.ymap mm) →
      ∃ e, DbvParser.parse_chiplet_defs fs ctx cmap = .error e)
    ∧ (hasKey m "type" = false →
      DbvParser.parse_chiplet fs ctx { name := name } m
        = .error (.parserError ("Parser Error: "
            ++ ("Chiplet type is required for chiplet " ++ name))))
    ∧ (∀ tv c, ylookup m "type" = some tv →
      DbvParser.parse_chiplet fs ctx { name := name } m = .ok c →
      c.type = pyStr tv) := by
  refine ⟨chiplet_defs_missing_type fs ctx cmap name m, ?_, ?_⟩
  · intro h
    exact chiplet_type_missing fs ctx { name := name } m h
  · intro tv c htv h
    unfold DbvParser.parse_chiplet at h
    obtain ⟨c1, h1, h⟩ := bind_ok h
    obtain ⟨c2, h2, h⟩ := bind_ok h
    obtain ⟨c3, h3, h⟩ := bind_ok h
    obtain ⟨c4, h4, h⟩ := bind_ok h
    obtain ⟨c5, h5, h⟩ := bind_ok h
    obtain ⟨c6, h6, h⟩ := bind_ok h
    obtain ⟨c7, h7, h⟩ := bind_ok h
    obtain ⟨c8, h8, h⟩ := bind_ok h
    obtain ⟨c9, h9, h⟩ := bind_ok h
    have t1 : c1.type = pyStr tv := by
      unfold DbvParser.typeStep at h1
      rw [htv] at h1
      cases pure_ok h1
      rfl
    calc c.type = c9.type := (externalStep_frame h).2.1
      _ = c8.type := (regionsStep_frame h9).2.1
      _ = c7.type := (tsvStep_frame h8).2.1
      _ = c6.type := (shrinkStep_frame h7).2.1
      _ = c5.type := (thicknessStep_frame h6).2.1
      _ = c4.type := (scribeLineStep_frame h5).2.1
      _ = c3.type := (sealRingStep_frame h4).2.1
      _ = c2.type := (offsetStep_frame h3).2.1
      _ = c1.type := (designAreaStep_frame h2).2
      _ = pyStr tv := t1

/-- C9 witness: a one-chiplet map lacking `type` fails with the naming
error, and a chiplet with `type: logic` parses with that type string. -/
theorem C9_witness :
    (∃ e, DbvParser.parse_chiplet_defs {} {} [("c0", .ymap [("tsv", .ybool true)])]
      = .error e)
    ∧ DbvParser.parse_chiplet {} {} { name := "c0" } [("tsv", .ybool true)]
      = .error (.parserError ("Parser Error: "
          ++ ("Chiplet type is required for chiplet " ++ "c0")))
    ∧ ({ name := "c0", type := "logic", tsv := true } : ChipletDef).type
      = pyStr (.ystr "logic") :=
  ⟨(C9_chiplet_type {} {} [("c0", .ymap [("tsv", .ybool true)])] "c0"
      [("tsv", .ybool true)]).1 (List.mem_cons_self _ _) (by decide)
      (by intro p hp; cases hp with
          | head => exact ⟨[("tsv", .ybool true)], rfl⟩
          | tail _ h => cases h),
   (C9_chiplet_type {} {} [] "c0" [("tsv", .ybool true)]).2.1 (by decide),
   (C9_chiplet_type {} {} [] "c0" [("tsv", .ybool true), ("type", .ystr "logic")]).2.2
     (.ystr "logic") { name := "c0", type := "logic", tsv := true } rfl (by decide)⟩

/-! ## Claim C6 — the `design_area` field -/

/-- C6 (confirmed): a 2-element numeric `design_area` `[w, h]` gives a
chiplet with `design_width = w` and `design_height = h` whenever the
chiplet parses; a `design_area` array of any other length fails the parse
with a Parser Error naming the offending chiplet. -/
theorem C6_design_area (fs : FS) (ctx : PathCtx) (name : String)
    (node : List (String × YVal)) :
    (∀ (w hgt : Rat) (c : ChipletDef),
      ylookup node "design_area" = some (.ylist [.yfloat w, .yfloat hgt]) →
      DbvParser.parse_chiplet fs ctx { name := name } node = .ok c →
      c.design_width = w ∧ c.design_height = hgt)
    ∧ (∀ l, ylookup node "design_area" = some (.ylist l) → l.length ≠ 2 →
      hasKey node "type" = true →
      DbvParser.parse_chiplet fs ctx { name := name } node
        = .error (.parserError ("Parser Error: "
            ++ ("design_area must have 2 values for chiplet " ++ name)))) := by
  constructor
  · intro w hgt c hda h
    unfold DbvParser.parse_chiplet at h
    obtain ⟨c1, h1, h⟩ := bind_ok h
    obtain ⟨c2, h2, h⟩ := bind_ok h
    obtain ⟨c3, h3, h⟩ := bind_ok h
    obtain ⟨c4, h4, h⟩ := bind_ok h
    obtain ⟨c5, h5, h⟩ := bind_ok h
    obtain ⟨c6, h6, h⟩ := bind_ok h
    obtain ⟨c7, h7, h⟩ := bind_ok h
    obtain ⟨c8, h8, h⟩ := bind_ok h
    obtain ⟨c9, h9, h⟩ := bind_ok h
    unfold DbvParser.designAreaStep at h2
    rw [hda] at h2
    obtain ⟨w2, hw, h2⟩ := bind_ok h2
    obtain ⟨hv2, hh, h2⟩ := bind_ok h2
    have hw2 : w2 = w := (Except.ok.inj hw).symm
    have hv2e : hv2 = hgt := (Except.ok.inj hh).symm
    have hc2 := pure_ok h2
    have ew : c2.design_width = w := by rw [← hc2]; exact hw2
    have eh : c2.design_height = hgt := by rw [← hc2]; exact hv2e
    constructor
    · calc c.design_width = c9.design_width := (externalStep_frame h).2.2.1
        _ = c8.design_width := (regionsStep_frame h9).2.2.1
        _ = c7.design_width := (tsvStep_frame h8).2.2.1
        _ = c6.design_width := (shrinkStep_frame h7).2.2.1
        _ = c5.design_width := (thicknessStep_frame h6).2.2.1
        _ = c4.design_width := (scribeLineStep_frame h5).2.2.1
        _ = c3.design_width := (sealRingStep_frame h4).2.2.1
        _ = c2.design_width := (offsetStep_frame h3).2.2.1
        _ = w := ew
    · calc c.design_height = c9.design_height := (externalStep_frame h).2.2.2
        _ = c8.design_height := (regionsStep_frame h9).2.2.2
        _ = c7.design_height := (tsvStep_frame h8).2.2.2
        _ = c6.design_height := (shrinkStep_frame h7).2.2.2
        _ = c5.design_height := (thicknessStep_frame h6).2.2.2
        _ = c4.design_height := (scribeLineStep_frame h5).2.2.2
        _ = c3.design_height := (sealRingStep_frame h4).2.2.2
        _ = c2.design_height := (offsetStep_frame h3).2.2.2
        _ = hgt := eh
  · intro l hda hlen htype
    obtain ⟨tv, htv⟩ : ∃ tv, ylookup node "type" = some tv := by
      simpa [hasKey, Option.isSome_iff_exists] using htype
    rcases l with _ | ⟨a, _ | ⟨b, _ | ⟨c3, rest⟩⟩⟩
    · simp [DbvParser.parse_chiplet, DbvParser.typeStep, DbvParser.designAreaStep,
        htv, hda, BaseParser.log_error, Bind.bind, Except.bind, pure, Except.pure]
    · simp [DbvParser.parse_chiplet, DbvParser.typeStep, DbvParser.designAreaStep,
        htv, hda, BaseParser.log_error, Bind.bind, Except.bind, pure, Except.pure]
    · exact absurd rfl hlen
    · simp [DbvParser.parse_chiplet, DbvParser.typeStep, DbvParser.designAreaStep,
        htv, hda, BaseParser.log_error, Bind.bind, Except.bind, pure, Except.pure]

/-- C6 witness: the round-trip at `design_area: [100, 200]` and the
rejection of a 1-element array, both on a concrete chiplet node. -/
theorem C6_witness :
    (({ name := "c0", type := "t", design_width := mkRat 100 1, design_height := mkRat 200 1 } : ChipletDef).design_width = mkRat 100 1
      ∧ ({ name := "c0", type := "t", design_width := mkRat 100 1, design_height := mkRat 200 1 } : ChipletDef).design_height = mkRat 200 1)
    ∧ DbvParser.parse_chiplet {} {} { name := "c0" }
        [("type", .ystr "t"), ("design_area", .ylist [.yfloat (mkRat 100 1)])]
      = .error (.parserError ("Parser Error: "
          ++ ("design_area must have 2 values for chiplet " ++ "c0"))) :=
  ⟨(C6_design_area {} {} "c0"
      [("type", .ystr "t"),
       ("design_area", .ylist [.yfloat (mkRat 100 1), .yfloat (mkRat 200 1)])]).1
      (mkRat 100 1) (mkRat 200 1)
      { name := "c0", type := "t", design_width := mkRat 100 1, design_height := mkRat 200 1 }
      rfl (by decide),
   (C6_design_area {} {} "c0"
      [("type", .ystr "t"), ("design_area", .ylist [.yfloat (mkRat 100 1)])]).2
      [.yfloat (mkRat 100 1)] rfl (by decide) (by decide)⟩

/-! ## Lemmas on instance dictionaries and the Stack section -/

theorem asMap_ok {v : YVal} {m : List (String × YVal)} (h : asMap v = .ok m) :
    v = .ymap m := by
  cases v <;> simp_all [asMap, pure, Except.pure]

theorem lookupA_eq_none_iff {α : Type} (m : List (String × α)) (k : String) :
    DbxParser.lookupA m k = none ↔ k ∉ m.map Prod.fst := by
  induction m with
  | nil => simp [DbxParser.lookupA]
  | cons p rest ih =>
    obtain ⟨k2, v⟩ := p
    by_cases hk : k2 = k
    · subst hk
      simp [DbxParser.lookupA]
    · simp [DbxParser.lookupA, hk, ih, Ne.symm hk]

theorem updateA_lookup_ne {α : Type} (m : List (String × α)) (key k : String) (v : α)
    (h : k ≠ key) : DbxParser.lookupA (DbxParser.updateA m key v) k
      = DbxParser.lookupA m k := by
  induction m with
  | nil => rfl
  | cons p rest ih =>
    obtain ⟨k2, v2⟩ := p
    by_cases hk : k2 = key
    · subst hk
      simp [DbxParser.updateA, DbxParser.lookupA, Ne.symm h]
    · simp only [DbxParser.updateA, if_neg hk, DbxParser.lookupA]
      split
      · rfl
      · exact ih

theorem updateA_lookup_self {α : Type} (m : List (String × α)) (k : String) (v : α)
    (h : (DbxParser.lookupA m k).isSome) :
    DbxParser.lookupA (DbxParser.updateA m k v) k = some v := by
  induction m with
  | nil => simp [DbxParser.lookupA] at h
  | cons p rest ih =>
    obtain ⟨k2, v2⟩ := p
    by_cases hk : k2 = k
    · subst hk
      simp [DbxParser.updateA, DbxParser.lookupA]
    · simp only [DbxParser.lookupA, if_neg hk] at h
      simp only [DbxParser.updateA, if_neg hk, DbxParser.lookupA, if_neg hk]
      exact ih h

theorem updateA_map_fst {α : Type} (m : List (String × α)) (k : String) (v : α) :
    (DbxParser.updateA m k v).map Prod.fst = m.map Prod.fst := by
  induction m with
  | nil => rfl
  | cons p rest ih =>
    obtain ⟨k2, v2⟩ := p
    by_cases hk : k2 = k
    · subst hk
      simp [DbxParser.updateA]
    · simp [DbxParser.updateA, hk, ih]

theorem parse_chiplet_insts_keys {ctx : PathCtx} :
    ∀ {cm : List (String × YVal)} {insts : List (String × ChipletInst)},
    DbxParser.parse_chiplet_insts ctx cm = .ok insts →
    insts.map Prod.fst = cm.map Prod.fst := by
  intro cm
  induction cm with
  | nil =>
    intro insts h
    cases pure_ok h
    rfl
  | cons p rest ih =>
    obtain ⟨name, v⟩ := p
    intro insts h
    unfold DbxParser.parse_chiplet_insts at h
    obtain ⟨m, h1, h⟩ := bind_ok h
    obtain ⟨inst, h2, h⟩ := bind_ok h
    obtain ⟨restInsts, h3, h⟩ := bind_ok h
    cases pure_ok h
    simp [ih h3]

theorem headerStep_ci {fs : FS} {ctx : PathCtx} {d d' : DbxData}
    {root : List (String × YVal)} (h : DbxParser.headerStep fs ctx d root = .ok d') :
    d'.chiplet_instances = d.chiplet_instances := by
  unfold DbxParser.headerStep at h
  split at h
  · cases pure_ok h
    rfl
  · obtain ⟨m, h1, h⟩ := bind_ok h
    obtain ⟨hd, h2, h⟩ := bind_ok h
    cases pure_ok h
    rfl

theorem designStep_ci {ctx : PathCtx} {d d' : DbxData}
    {root : List (String × YVal)} (h : DbxParser.designStep ctx d root = .ok d') :
    d'.chiplet_instances = d.chiplet_instances := by
  unfold DbxParser.designStep at h
  split at h
  · cases pure_ok h
    rfl
  · obtain ⟨m, h1, h⟩ := bind_ok h
    obtain ⟨dd, h2, h⟩ := bind_ok h
    cases pure_ok h
    rfl

/-- Parsing a Stack map that mentions a key with no instance of that name
always fails (either at that key, or earlier). -/
theorem parse_stack_missing (k : String) :
    ∀ (stackM : List (String × YVal)) (insts : List (String × ChipletInst)),
    k ∈ stackM.map Prod.fst → DbxParser.lookupA insts k = none →
    ∃ e, DbxParser.parse_stack insts stackM = .error e := by
  intro stackM
  induction stackM with
  | nil => intro insts hk _; cases hk
  | cons p rest ih =>
    obtain ⟨name, v⟩ := p
    intro insts hk hnone
    cases hl : DbxParser.lookupA insts name with
    | none =>
      refine ⟨.parserError ("Parser Error: "
        ++ ("DBX Stack instance '" ++ name ++ "' not found in ChipletInst")), ?_⟩
      simp only [DbxParser.parse_stack, hl, BaseParser.log_error,
        Bind.bind, Except.bind]
    | some inst =>
      have hkname : k ≠ name := by
        intro heq
        rw [heq, hl] at hnone
        cases hnone
      have hkrest : k ∈ rest.map Prod.fst := by
        rcases List.mem_cons.mp hk with h1 | h2
        · exact absurd h1 hkname
        · exact h2
      cases hpi : DbxParser.parse_stack_instance inst v with
      | error e =>
        refine ⟨e, ?_⟩
        simp only [DbxParser.parse_stack, hl, hpi, Bind.bind, Except.bind]
      | ok inst2 =>
        obtain ⟨e, he⟩ := ih (DbxParser.updateA insts name inst2) hkrest
          (by rw [updateA_lookup_ne insts name k inst2 hkname]; exact hnone)
        refine ⟨e, ?_⟩
        simp only [DbxParser.parse_stack, hl, hpi, Bind.bind, Except.bind]
        exact he

/-! ## Claim C4 — Stack keys must name declared instances -/

/-- C4 (confirmed): in a DBX document with a `Stack` section, a stack key
that is absent from the `ChipletInst` map makes the whole document parse
fail; at the point of detection the error is a Parser Error naming the
unknown instance. -/
theorem C4_stack_key_checked (fs : FS) (ctx : PathCtx)
    (root stackM : List (String × YVal)) (k : String)
    (hs : ylookup root "Stack" = some (.ymap stackM))
    (hk : k ∈ stackM.map Prod.fst)
    (hmiss : ∀ cm, ylookup root "ChipletInst" = some (.ymap cm) → k ∉ cm.map Prod.fst) :
    (∃ e, DbxParser.parse_yaml_content fs ctx root = .error e)
    ∧ (∀ (insts : List (String × ChipletInst)) (v : YVal) (rest : List (String × YVal)),
      DbxParser.lookupA insts k = none →
      DbxParser.parse_stack insts ((k, v) :: rest)
        = .error (.parserError ("Parser Error: "
            ++ ("DBX Stack instance '" ++ k ++ "' not found in ChipletInst")))) := by
  constructor
  · cases hres : DbxParser.parse_yaml_content fs ctx root with
    | error e => exact ⟨e, rfl⟩
    | ok d =>
      exfalso
      unfold DbxParser.parse_yaml_content at hres
      obtain ⟨d1, h1, hres⟩ := bind_ok hres
      obtain ⟨d2, h2, hres⟩ := bind_ok hres
      obtain ⟨d3, h3, hres⟩ := bind_ok hres
      obtain ⟨d4, h4, hres⟩ := bind_ok hres
      have hd1 : d1.chiplet_instances = [] := headerStep_ci h1
      have hd2 : d2.chiplet_instances = [] := (designStep_ci h2).trans hd1
      have hd3 : DbxParser.lookupA d3.chiplet_instances k = none := by
        unfold DbxParser.instsStep at h3
        cases hci : ylookup root "ChipletInst" with
        | none =>
          rw [hci] at h3
          cases pure_ok h3
          rw [hd2]
          rfl
        | some cv =>
          rw [hci] at h3
          obtain ⟨cm, hm1, h3⟩ := bind_ok h3
          obtain ⟨insts, hm2, h3⟩ := bind_ok h3
          cases pure_ok h3
          have hcv : cv = .ymap cm := asMap_ok hm1
          have hk2 : k ∉ cm.map Prod.fst := hmiss cm (hcv ▸ hci)
          have : insts.map Prod.fst = cm.map Prod.fst := parse_chiplet_insts_keys hm2
          exact (lookupA_eq_none_iff insts k).mpr (by rw [this]; exact hk2)
      unfold DbxParser.stackStep at h4
      rw [hs] at h4
      obtain ⟨sm, hm1, h4⟩ := bind_ok h4
      obtain ⟨insts2, hm2, h4⟩ := bind_ok h4
      have hsm : stackM = sm := YVal.ymap.inj (asMap_ok hm1)
      obtain ⟨e, he⟩ := parse_stack_missing k stackM d3.chiplet_instances hk hd3
      rw [← hsm] at hm2
      rw [hm2] at he
      cases he
  · intro insts v rest hnone
    simp only [DbxParser.parse_stack, hnone, BaseParser.log_error,
      Bind.bind, Except.bind]

/-- C4 witness: a document whose Stack names `iX` while `ChipletInst`
declares only `i0` — the whole parse fails, and `_parse_stack` on an empty
instance dict reports the naming error. -/
theorem C4_witness :
    (∃ e, DbxParser.parse_yaml_content {} {}
        [("ChipletInst", .ymap [("i0", .ymap [("reference", .ystr "c0")])]),
         ("Stack", .ymap [("iX", .ymap [])])]
      = .error e)
    ∧ DbxParser.parse_stack ([] : List (String × ChipletInst)) [("iX", .ymap [])]
      = .error (.parserError ("Parser Error: "
          ++ ("DBX Stack instance '" ++ "iX" ++ "' not found in ChipletInst"))) :=
  have hmain := C4_stack_key_checked {} {}
    [("ChipletInst", .ymap [("i0", .ymap [("reference", .ystr "c0")])]),
     ("Stack", .ymap [("iX", .ymap [])])]
    [("iX", .ymap [])] "iX" rfl (by simp)
    (by
      intro cm hcm
      have h2 := YVal.ymap.inj (Option.some.inj hcm)
      rw [← h2]
      decide)
  ⟨hmain.1, hmain.2 [] (.ymap []) [] rfl⟩

/-! ## Claim C10 — the frame of the Stack section -/

/-- `_parse_stack_instance` assigns only `loc`, `z` and `orient`: the
instance's `name`, `reference` and `external` are unchanged. -/
theorem parse_stack_instance_frame {inst inst' : ChipletInst} {v : YVal}
    (h : DbxParser.parse_stack_instance inst v = .ok inst') :
    inst'.name = inst.name ∧ inst'.reference = inst.reference
      ∧ inst'.external = inst.external := by
  unfold DbxParser.parse_stack_instance at h
  obtain ⟨node, h1, h⟩ := bind_ok h
  obtain ⟨u1, h2, h⟩ := bind_ok h
  obtain ⟨loc, h3, h⟩ := bind_ok h
  obtain ⟨u2, h4, h⟩ := bind_ok h
  obtain ⟨z, h5, h⟩ := bind_ok h
  obtain ⟨u3, h6, h⟩ := bind_ok h
  obtain ⟨orientv, h7, h⟩ := bind_ok h
  cases pure_ok h
  exact ⟨rfl, rfl, rfl⟩

/-- C10 (confirmed): a successful Stack parse only rewrites the placement
fields of the named instances — the key set (and its order) of the
instance dict is unchanged, instances not named by the Stack map are left
untouched, and for every instance the `name`, `reference` and `external`
fields keep their pre-Stack values. -/
theorem C10_stack_frame (stack : List (String × YVal)) :
    ∀ (insts insts' : List (String × ChipletInst)),
    DbxParser.parse_stack insts stack = .ok insts' →
    insts'.map Prod.fst = insts.map Prod.fst
    ∧ (∀ k, k ∉ stack.map Prod.fst →
        DbxParser.lookupA insts' k = DbxParser.lookupA insts k)
    ∧ (∀ k i i', DbxParser.lookupA insts k = some i →
        DbxParser.lookupA insts' k = some i' →
        i'.name = i.name ∧ i'.reference = i.reference ∧ i'.external = i.external) := by
  induction stack with
  | nil =>
    intro insts insts' h
    obtain rfl := pure_ok h
    refine ⟨rfl, fun k _ => rfl, fun k i i' h1 h2 => ?_⟩
    rw [h1] at h2
    obtain rfl := Option.some.inj h2
    exact ⟨rfl, rfl, rfl⟩
  | cons p rest ih =>
    obtain ⟨name, v⟩ := p
    intro insts insts' h
    cases hl : DbxParser.lookupA insts name with
    | none =>
      exfalso
      simp only [DbxParser.parse_stack, hl, BaseParser.log_error,
        Bind.bind, Except.bind] at h
      exact Except.noConfusion h
    | some inst =>
      simp only [DbxParser.parse_stack, hl] at h
      obtain ⟨inst2, hpi, h⟩ := bind_ok h
      obtain ⟨f1, f2, f3⟩ := parse_stack_instance_frame hpi
      obtain ⟨e1, e2, e3⟩ := ih (DbxParser.updateA insts name inst2) insts' h
      refine ⟨?_, ?_, ?_⟩
      · rw [e1, updateA_map_fst]
      · intro k hk
        have hk1 : k ≠ name := fun he => hk (he ▸ List.mem_cons_self _ _)
        have hk2 : k ∉ rest.map Prod.fst := fun hm => hk (List.mem_cons_of_mem _ hm)
        rw [e2 k hk2, updateA_lookup_ne insts name k inst2 hk1]
      · intro k i i' hi hi'
        by_cases hkn : k = name
        · subst hkn
          rw [hl] at hi
          obtain rfl := Option.some.inj hi
          have hup : DbxParser.lookupA (DbxParser.updateA insts k inst2) k = some inst2 :=
            updateA_lookup_self insts k inst2 (by rw [hl]; rfl)
          obtain ⟨g1, g2, g3⟩ := e3 k inst2 i' hup hi'
          exact ⟨g1.trans f1, g2.trans f2, g3.trans f3⟩
        · have hee : DbxParser.lookupA (DbxParser.updateA insts name inst2) k = some i := by
            rw [updateA_lookup_ne insts name k inst2 hkn]
            exact hi
          exact e3 k i i' hee hi'

/-- C10 witness: a two-instance dict whose Stack places only `i0` — the
untouched instance `i1` is looked up unchanged after the Stack parse. -/
theorem C10_witness :
    DbxParser.lookupA
      ([("i0", { name := "i0", reference := "r0", loc := { x := mkRat 1 1, y := mkRat 2 1 }, z := mkRat 3 1, orient := "R0" }),
        ("i1", { name := "i1", reference := "r1" })] : List (String × ChipletInst)) "i1"
    = DbxParser.lookupA
      ([("i0", { name := "i0", reference := "r0" }),
        ("i1", { name := "i1", reference := "r1" })] : List (String × ChipletInst)) "i1" :=
  (C10_stack_frame
    [("i0", .ymap [("loc", .ylist [.yfloat (mkRat 1 1), .yfloat (mkRat 2 1)]),
                   ("z", .yfloat (mkRat 3 1)), ("orient", .ystr "R0")])]
    ([("i0", { name := "i0", reference := "r0" }),
      ("i1", { name := "i1", reference := "r1" })] : List (String × ChipletInst))
    ([("i0", { name := "i0", reference := "r0", loc := { x := mkRat 1 1, y := mkRat 2 1 }, z := mkRat 3 1, orient := "R0" }),
      ("i1", { name := "i1", reference := "r1" })] : List (String × ChipletInst))
    (by decide)).2.1 "i1" (by decide)
